import Mathlib

/-!
Verification of the knx-netip.js KNXnet/IP stack: a shallow embedding of the
frame codec (KnxProtocol), the datagram builder (KnxDatagram.js) and the
sequence-number handling of the connection FSM, with theorems settling the
specification's claims about them.

Conventions of the embedding:
* JS numbers that hold bytes are `Nat`; writers apply the Buffer masking
  (`% 256`, `% 65536`) exactly where `writeUInt8` / `writeUInt16BE` do.
* JS object fields that the code may leave unset (`undefined` / `null`) are
  `Option Nat`; serialising an unset field goes through the Buffer coercion
  of a non-numeric value to byte 0, modelled by `jsByte`.
* Byte buffers are `List Nat`; `Buffer.slice` clamps, so `raw n` is
  `List.take n`, while `readUInt8` past the end throws, so `readU8` fails.
* The ipaddr.js textual form of an endpoint ("a.b.c.d:port") is a bijection
  with the four-octet + port form; endpoints are modelled at the octet level.
* The address codec (src/Address.js, not part of the provided sources) is,
  per the spec (§4.1), an exact bijection between text and the 16-bit wire
  form; addresses are therefore modelled as their 16-bit wire value.
-/

namespace KnxNetIp

/-- Modelled from the spec: service type constants (src/KnxConstants.js is not
among the provided sources); §6 fixes them "per KNX standard values". -/
def SERVICE_TYPE_SEARCH_REQUEST : Nat := 0x0201

/-- Modelled from the spec: SEARCH_RESPONSE service type. -/
def SERVICE_TYPE_SEARCH_RESPONSE : Nat := 0x0202

/-- Modelled from the spec: DESCRIPTION_RESPONSE service type. -/
def SERVICE_TYPE_DESCRIPTION_RESPONSE : Nat := 0x0204

/-- Modelled from the spec: CONNECT_REQUEST service type. -/
def SERVICE_TYPE_CONNECT_REQUEST : Nat := 0x0205

/-- Modelled from the spec: CONNECT_RESPONSE service type. -/
def SERVICE_TYPE_CONNECT_RESPONSE : Nat := 0x0206

/-- Modelled from the spec: CONNECTIONSTATE_REQUEST service type. -/
def SERVICE_TYPE_CONNECTIONSTATE_REQUEST : Nat := 0x0207

/-- Modelled from the spec: CONNECTIONSTATE_RESPONSE service type. -/
def SERVICE_TYPE_CONNECTIONSTATE_RESPONSE : Nat := 0x0208

/-- Modelled from the spec: DISCONNECT_REQUEST service type. -/
def SERVICE_TYPE_DISCONNECT_REQUEST : Nat := 0x0209

/-- Modelled from the spec: DISCONNECT_RESPONSE service type. -/
def SERVICE_TYPE_DISCONNECT_RESPONSE : Nat := 0x020a

/-- Modelled from the spec: TUNNELING_REQUEST service type. -/
def SERVICE_TYPE_TUNNELING_REQUEST : Nat := 0x0420

/-- Modelled from the spec: TUNNELING_ACK service type. -/
def SERVICE_TYPE_TUNNELING_ACK : Nat := 0x0421

/-- Modelled from the spec: ROUTING_INDICATION service type. -/
def SERVICE_TYPE_ROUTING_INDICATION : Nat := 0x0530

/-- Modelled from the spec: message code L_Data.req = 0x11 (§6). -/
def MESSAGECODE_L_Data_req : Nat := 0x11

/-- Modelled from the spec: message code L_Data.ind = 0x29 (§6). -/
def MESSAGECODE_L_Data_ind : Nat := 0x29

/-- Modelled from the spec: message code L_Data.con = 0x2E (§6). -/
def MESSAGECODE_L_Data_con : Nat := 0x2E

/-- Modelled from the spec: connection type TUNNEL_CONNECTION = 0x04 (§6). -/
def CONNECTION_TYPE_TUNNEL_CONNECTION : Nat := 0x04

/-- Modelled from the spec: connection type DEVICE_MGMT_CONNECTION = 0x03 (§6). -/
def CONNECTION_TYPE_DEVICE_MGMT_CONNECTION : Nat := 0x03

/-- Modelled from the spec: KNX layer LINK_LAYER = 0x02 (§6). -/
def KNX_LAYER_LINK_LAYER : Nat := 0x02

/-- Modelled from the spec: protocol type IPV4_UDP = 1, IPV4_TCP = 2 (§3). -/
def PROTOCOL_TYPE_IPV4_UDP : Nat := 1

/-- Modelled from the spec: protocol type IPV4_TCP = 2, rejected on read. -/
def PROTOCOL_TYPE_IPV4_TCP : Nat := 2

/-- Modelled from the spec: response code NO_ERROR = 0x00 (§6). -/
def RESPONSECODE_NO_ERROR : Nat := 0x00

/-- Modelled from the spec: the APCI enumeration (src/KnxConstants.js is not
among the provided sources); §3 lists GroupValue_Read, GroupValue_Response,
GroupValue_Write as its members.  The codec only relies on positions, via
indexOf and indexing, so theorems quantify over membership in this list. -/
def APCICODES : List String :=
  ["GroupValue_Read", "GroupValue_Response", "GroupValue_Write"]

/-- Modelled from the spec: keyText("RESPONSECODE", s) = "NO_ERROR" exactly
when s is the NO_ERROR code 0x00 (keyText maps a value back to its unique
constant name). -/
def responseIsNoError (s : Nat) : Bool := s == RESPONSECODE_NO_ERROR

/-- Buffer coercion of a possibly-unset JS numeric field: writeUInt8 of a set
value masks to a byte, an unset (undefined / null) field is coerced to 0 by
the Buffer write. -/
def jsByte (v : Option Nat) : Nat := (v.getD 0) % 256

/-- Big-endian 16-bit serialisation, as writeUInt16BE. -/
def u16be (v : Nat) : List Nat := [v / 256 % 256, v % 256]

/-- An IPv4 endpoint, modelled at the octet level (the ipaddr.js textual
form "a.b.c.d:port" is a bijection with this form). -/
structure IPv4Endpoint where
  a : Nat
  b : Nat
  c : Nat
  d : Nat
  port : Nat
  deriving DecidableEq, Repr

/-- IPv4Endpoint.write: four raw address octets then the 16-bit BE port. -/
def writeIPv4Endpoint (e : IPv4Endpoint) : List Nat :=
  [e.a % 256, e.b % 256, e.c % 256, e.d % 256] ++ u16be e.port

/-- HPAI value, as built by the writer: protocol byte and endpoint.  The
length byte is the constant 8 on write, and canonicalised away on read. -/
structure HPAI where
  protocolType : Nat
  tunnelEndpoint : IPv4Endpoint
  deriving DecidableEq, Repr

/-- HPAI.write: constant length 8, protocol byte, endpoint. -/
def writeHPAI (h : HPAI) : List Nat :=
  0x08 :: h.protocolType % 256 :: writeIPv4Endpoint h.tunnelEndpoint

/-- CRI value: connection type, knx layer, reserved byte.  The length byte is
the constant 4 on write and canonicalised away on read. -/
structure CRI where
  connectionType : Nat
  knxLayer : Nat
  unused : Nat
  deriving DecidableEq, Repr

/-- CRI.write: constant length 4, connection type, knx layer, reserved. -/
def writeCRI (c : CRI) : List Nat :=
  [0x04, c.connectionType % 256, c.knxLayer % 256, c.unused % 256]

/-- ConnState value.  The builder (addConnState) sets only channelId (and a
dead `state` key), leaving `status` unset, hence the Option fields. -/
structure ConnState where
  channelId : Option Nat
  status : Option Nat
  deriving DecidableEq, Repr

/-- ConnState.write: channel id byte then status byte. -/
def writeConnState (c : ConnState) : List Nat :=
  [jsByte c.channelId, jsByte c.status]

/-- TunnState value.  The builder (addTunnState) sets only channelId; seqnum
is filled in later by setSeqNum and status is never set, hence the Option
fields.  The builder's unserialised tunnelEndpoint key is omitted. -/
structure TunnState where
  channelId : Option Nat
  seqnum : Option Nat
  status : Option Nat
  deriving DecidableEq, Repr

/-- TunnState.write: constant length 4, channel id, seqnum, status. -/
def writeTunnState (t : TunnState) : List Nat :=
  [0x04, jsByte t.channelId, jsByte t.seqnum, jsByte t.status]

/-- DIB device info, read-only (DIBdevinfo.write is unimplemented in the
source).  The external string formatting of the address, serial and name is
kept at the byte level. -/
structure DIBdevinfo where
  descriptionType : Nat
  physicalAddr : List Nat
  serial : List Nat
  name : List Nat
  deriving DecidableEq, Repr

/-- CEMI control field, the bit-packed pair ctrl1/ctrl2. -/
structure Ctrl where
  frameType : Nat
  reserved : Nat
  «repeat» : Nat
  broadcast : Nat
  priority : Nat
  acknowledge : Nat
  confirm : Nat
  destAddrType : Nat
  hopCount : Nat
  extendedFrame : Nat
  deriving DecidableEq, Repr

/-- CEMI.write packing of ctrl1 (exactly the source's arithmetic). -/
def ctrlField1 (c : Ctrl) : Nat :=
  c.frameType * 0x80 + c.reserved * 0x40 + c.«repeat» * 0x20 +
    c.broadcast * 0x10 + c.priority * 0x04 + c.acknowledge * 0x02 + c.confirm

/-- CEMI.write packing of ctrl2 (exactly the source's arithmetic). -/
def ctrlField2 (c : Ctrl) : Nat :=
  c.destAddrType * 0x80 + c.hopCount * 0x10 + c.extendedFrame

/-- APDU payload: a JS number or a Buffer / array of bytes. -/
inductive ApduData where
  | num (n : Nat)
  | buf (bs : List Nat)
  deriving DecidableEq, Repr

/-- APDU value.  apci is an Option because reading an APDU whose 4-bit code
indexes past the APCICODES list leaves the field undefined; bitlength is set
only by makeWriteRawRequest. -/
structure APDU where
  tpci : Nat
  apci : Option String
  data : ApduData
  bitlength : Option Nat
  deriving DecidableEq, Repr

/-- KnxProtocol.lengths.APDU on a present value: the bitlength override wins
when set and non-zero (JS truthiness); otherwise a falsy payload is replaced
by the number 0; a buffer payload of 1 to 14 bytes costs 3 + length, except
that a single byte holding 0..63 fits into the word (3 bytes); a numeric
payload 0..63 also fits into the word; anything else throws. -/
def lengthsAPDU (v : APDU) : Except String Nat :=
  match v.bitlength with
  | some bl =>
    if bl ≠ 0 then .ok (3 + (if bl > 6 then (bl + 7) / 8 else 0))
    else lengthsAPDUdata v.data
  | none => lengthsAPDUdata v.data
where
  /-- The non-bitlength branch of lengths.APDU, on the (defaulted) payload. -/
  lengthsAPDUdata : ApduData → Except String Nat
    | .buf [] =>
      -- an empty buffer is falsy only through .length, so it reaches the
      -- numeric branch where parseFloat of it is NaN and the code throws
      .error "APDU payload must be a 6-bit int or an Array/Buffer (1 to 14 bytes)"
    | .buf bs =>
      if bs.length > 14 then .error "APDU value too big, must be <= 14 bytes"
      else if bs.length = 1 ∧ bs.headI ≤ 63 then .ok 3
      else .ok (3 + bs.length)
    | .num n =>
      if n ≤ 63 then .ok 3
      else .error "APDU payload must be a 6-bit int or an Array/Buffer (1 to 14 bytes)"

/-- Outcome of a JS write method: bytes emitted, a thrown exception, or an
early return after logging an error (which emits nothing but does not
throw). -/
inductive WriteResult where
  | ok (bytes : List Nat)
  | thrown (msg : String)
  | skipped (msg : String)
  deriving DecidableEq, Repr

/-- The 6-bit value embedded into the TPCI/APCI word for a 3-byte APDU:
the payload itself when numeric, else its first byte. -/
def apduEmbeddedData : ApduData → Nat
  | .num n => n
  | .buf bs => bs.headI

/-- The payload bytes appended after the word for a longer APDU. -/
def apduTailData : ApduData → List Nat
  | .num n => [n]
  | .buf bs => bs

/-- APDU.write: computes the total length (which may throw for a bad
payload), then returns without writing if the APCI code is unknown, throws
if the total length is below 3 or above 17, and otherwise emits the length
byte, the big-endian TPCI/APCI word (with the 6-bit payload folded in for a
3-byte APDU) and, for longer APDUs, the payload verbatim. -/
def writeAPDU (v : APDU) : WriteResult :=
  match lengthsAPDU v with
  | .error m => .thrown m
  | .ok totalLength =>
    let idx := match v.apci with
      | some a => APCICODES.indexOf a
      | none => APCICODES.length    -- indexOf of undefined finds nothing
    if idx ≥ APCICODES.length then .skipped "invalid APCI code"
    else if totalLength < 3 then .thrown "APDU is too small"
    else if totalLength > 17 then .thrown "APDU is too big"
    else
      let word := v.tpci * 0x400 + idx * 0x40
      if totalLength = 3 then
        .ok ((totalLength - 2) % 256 :: u16be (word + apduEmbeddedData v.data))
      else
        .ok ((totalLength - 2) % 256 :: u16be word ++ apduTailData v.data)

/-- CEMI value.  srcAddr and destAddr are the 16-bit wire values (the address
codec is an exact bijection with the textual form); addinfoLength is unset by
the builder, hence Option. -/
structure CEMI where
  msgcode : Nat
  addinfoLength : Option Nat
  ctrl : Ctrl
  srcAddr : Nat
  destAddr : Nat
  apdu : Option APDU
  deriving DecidableEq, Repr

/-- The message codes whose CEMI carries an APDU (L_Data.req/ind/con). -/
def msgcodeHasAPDU (m : Nat) : Bool :=
  m == MESSAGECODE_L_Data_req || m == MESSAGECODE_L_Data_ind ||
    m == MESSAGECODE_L_Data_con

/-- CEMI.write: msgcode, addinfo length, the packed control bytes, source
and destination addresses, then the APDU when the msgcode is an L_Data
primitive (a missing APDU throws there). -/
def writeCEMI (c : CEMI) : WriteResult :=
  let head := c.msgcode % 256 :: jsByte c.addinfoLength ::
    ctrlField1 c.ctrl % 256 :: ctrlField2 c.ctrl % 256 ::
    (u16be c.srcAddr ++ u16be c.destAddr)
  if msgcodeHasAPDU c.msgcode then
    match c.apdu with
    | none => .thrown "cannot write null APDU value"
    | some a =>
      match writeAPDU a with
      | .ok bs => .ok (head ++ bs)
      | .thrown m => .thrown m
      | .skipped _ => .ok head  -- APDU.write returned without writing
  else .ok head

/-- KnxProtocol.lengths.CEMI: 8 plus the APDU length (0 for no APDU). -/
def lengthsCEMI (c : Option CEMI) : Except String Nat :=
  match c with
  | none => .ok 0
  | some c =>
    match c.apdu with
    | none => .ok (8 + 0)
    | some a => do pure (8 + (← lengthsAPDU a))

/-- knxlen of an optional HPAI: 8 when present, 0 otherwise. -/
def lengthsHPAI (h : Option HPAI) : Nat := if h.isSome then 8 else 0

/-- knxlen of an optional CRI: 4 when present, 0 otherwise. -/
def lengthsCRI (c : Option CRI) : Nat := if c.isSome then 4 else 0

/-- knxlen of an optional ConnState: 2 when present, 0 otherwise. -/
def lengthsConnState (c : Option ConnState) : Nat := if c.isSome then 2 else 0

/-- knxlen of an optional TunnState: 4 when present, 0 otherwise. -/
def lengthsTunnState (t : Option TunnState) : Nat := if t.isSome then 4 else 0

/-- A KNXNetHeader frame value in canonical form: the service type tag plus
the optional substructures.  The header constants and the recomputed
totalLength are not part of the value (the claims' canonicalisation). -/
structure Datagram where
  serviceType : Nat
  hpai : Option HPAI
  tunn : Option HPAI
  cri : Option CRI
  connstate : Option ConnState
  tunnstate : Option TunnState
  cemi : Option CEMI
  devinfo : Option DIBdevinfo
  descval : Option (List Nat)
  deriving DecidableEq, Repr

/-- KnxProtocol.lengths.KNXNetHeader: totalLength by service type.  Service
types outside the switch fall off the JS function, yielding undefined
(`none` here). -/
def lengthsKNXNetHeader (v : Datagram) : Except String (Option Nat) :=
  if v.serviceType = SERVICE_TYPE_SEARCH_REQUEST ∨
      v.serviceType = SERVICE_TYPE_CONNECT_REQUEST then
    .ok (some (6 + lengthsHPAI v.hpai + lengthsHPAI v.tunn + lengthsCRI v.cri))
  else if v.serviceType = SERVICE_TYPE_SEARCH_RESPONSE ∨
      v.serviceType = SERVICE_TYPE_CONNECT_RESPONSE ∨
      v.serviceType = SERVICE_TYPE_CONNECTIONSTATE_REQUEST ∨
      v.serviceType = SERVICE_TYPE_CONNECTIONSTATE_RESPONSE ∨
      v.serviceType = SERVICE_TYPE_DISCONNECT_REQUEST then
    .ok (some (6 + lengthsConnState v.connstate + lengthsHPAI v.hpai +
      lengthsCRI v.cri))
  else if v.serviceType = SERVICE_TYPE_TUNNELING_ACK ∨
      v.serviceType = SERVICE_TYPE_TUNNELING_REQUEST then do
    pure (some (6 + lengthsTunnState v.tunnstate + (← lengthsCEMI v.cemi)))
  else if v.serviceType = SERVICE_TYPE_ROUTING_INDICATION then do
    pure (some (6 + (← lengthsCEMI v.cemi)))
  else .ok none

/-- The body the writer emits for the ConnState family of service types:
each substructure only when present. -/
def writeConnStateFamilyBody (v : Datagram) : List Nat :=
  (match v.connstate with | some c => writeConnState c | none => []) ++
  (match v.hpai with | some h => writeHPAI h | none => []) ++
  (match v.cri with | some c => writeCRI c | none => [])

/-- KNXNetHeader.write: recomputes totalLength (whose computation may throw
for a bad APDU), emits the constant header with it, then the service-typed
body; an unhandled service type throws.  The emitted byte list is the
writer's buffer as handed to the socket. -/
def writeKNXNetHeader (v : Datagram) : WriteResult :=
  match lengthsKNXNetHeader v with
  | .error m => .thrown m
  | .ok tl =>
    let header := 6 :: 0x10 :: (u16be v.serviceType ++ u16be (tl.getD 0))
    if v.serviceType = SERVICE_TYPE_SEARCH_REQUEST ∨
        v.serviceType = SERVICE_TYPE_CONNECT_REQUEST then
      .ok (header ++
        (match v.hpai with | some h => writeHPAI h | none => []) ++
        (match v.tunn with | some h => writeHPAI h | none => []) ++
        (match v.cri with | some c => writeCRI c | none => []))
    else if v.serviceType = SERVICE_TYPE_SEARCH_RESPONSE ∨
        v.serviceType = SERVICE_TYPE_CONNECT_RESPONSE ∨
        v.serviceType = SERVICE_TYPE_CONNECTIONSTATE_REQUEST ∨
        v.serviceType = SERVICE_TYPE_CONNECTIONSTATE_RESPONSE ∨
        v.serviceType = SERVICE_TYPE_DISCONNECT_REQUEST then
      .ok (header ++ writeConnStateFamilyBody v)
    else if v.serviceType = SERVICE_TYPE_ROUTING_INDICATION ∨
        v.serviceType = SERVICE_TYPE_TUNNELING_ACK ∨
        v.serviceType = SERVICE_TYPE_TUNNELING_REQUEST then
      match v.tunnstate, v.cemi with
      | some t, some c =>
        match writeCEMI c with
        | .ok bs => .ok (header ++ writeTunnState t ++ bs)
        | .thrown m => .thrown m
        | .skipped m => .skipped m
      | some t, none => .ok (header ++ writeTunnState t)
      | none, some c =>
        match writeCEMI c with
        | .ok bs => .ok (header ++ bs)
        | .thrown m => .thrown m
        | .skipped m => .skipped m
      | none, none => .ok header
    else .thrown "write KNXNetHeader: unhandled serviceType"

/-- The writer as a fallible byte producer (a throw or an APDU skip never
reaches the socket as a well-formed frame). -/
def writeBytes (v : Datagram) : Except String (List Nat) :=
  match writeKNXNetHeader v with
  | .ok bs => .ok bs
  | .thrown m => .error m
  | .skipped m => .error m

/-- readUInt8: one byte, throwing past the end of the buffer. -/
def readU8 : List Nat → Except String (Nat × List Nat)
  | [] => .error "Attempt to read beyond buffer length"
  | b :: rest => .ok (b, rest)

/-- readUInt16BE: two bytes, big endian. -/
def readU16BE (bs : List Nat) : Except String (Nat × List Nat) := do
  let (b0, r) ← readU8 bs
  let (b1, r) ← readU8 r
  pure (b0 * 256 + b1, r)

/-- IPv4Endpoint.read: four raw address octets (ipaddr.fromByteArray rejects
anything but exactly four) then the big-endian port. -/
def readIPv4Endpoint (bs : List Nat) : Except String (IPv4Endpoint × List Nat) :=
  match bs.take 4, bs.drop 4 with
  | [a, b, c, d], rest => do
    let (p, r) ← readU16BE rest
    pure (⟨a, b, c, d, p⟩, r)
  | _, _ => .error "ipaddr: the binary input is neither an IPv6 nor IPv4 address"

/-- HPAI.read: length byte, protocol byte and endpoint, then the tap guards:
a whole receive buffer shorter than the announced length is incomplete, and
TCP is rejected.  fullLen is this.buffer.length, the length of the whole
receive buffer. -/
def readHPAI (fullLen : Nat) (bs : List Nat) :
    Except String (HPAI × List Nat) := do
  let (hl, r) ← readU8 bs
  let (pt, r) ← readU8 r
  let (ep, r) ← readIPv4Endpoint r
  if fullLen < hl then .error "Incomplete KNXNet HPAI header"
  else if pt = PROTOCOL_TYPE_IPV4_TCP then .error "TCP is not supported"
  else pure (⟨pt, ep⟩, r)

/-- CRI.read: length, connection type, knx layer, reserved, then the tap
rejecting connection types other than device management and tunneling. -/
def readCRI (bs : List Nat) : Except String (CRI × List Nat) := do
  let (_hl, r) ← readU8 bs
  let (ct, r) ← readU8 r
  let (kl, r) ← readU8 r
  let (un, r) ← readU8 r
  if ct = CONNECTION_TYPE_DEVICE_MGMT_CONNECTION ∨
      ct = CONNECTION_TYPE_TUNNEL_CONNECTION then
    pure (⟨ct, kl, un⟩, r)
  else .error "Unsupported connection type"

/-- ConnState.read: channel id and status bytes. -/
def readConnState (bs : List Nat) : Except String (ConnState × List Nat) := do
  let (ch, r) ← readU8 bs
  let (st, r) ← readU8 r
  pure (⟨some ch, some st⟩, r)

/-- TunnState.read: length, channel id, seqnum and status bytes (the status
switch in the tap is a no-op). -/
def readTunnState (bs : List Nat) : Except String (TunnState × List Nat) := do
  let (_hl, r) ← readU8 bs
  let (ch, r) ← readU8 r
  let (seq, r) ← readU8 r
  let (st, r) ← readU8 r
  pure (⟨some ch, some seq, some st⟩, r)

/-- DIBdevinfo.read: length and description type bytes, then the fixed raw
fields (Buffer.slice clamps, so the raws never fail), then the tap guards on
the whole-buffer length and the description type. -/
def readDIBdevinfo (fullLen : Nat) (bs : List Nat) :
    Except String (DIBdevinfo × List Nat) := do
  let (hl, r) ← readU8 bs
  let (dt, r) ← readU8 r
  let r := r.drop 2                    -- unused
  let phys := r.take 2
  let r := r.drop 2
  let r := r.drop 2                    -- unused
  let serial := r.take 6
  let r := r.drop 6
  let r := (r.drop 4).drop 6           -- unused, unused
  let name := r.take 30
  let r := r.drop 30
  if fullLen < hl then .error "Incomplete KNXNet DIB Devinfo header"
  else if dt ≠ 1 then .error "Unknown Devinfo structure"
  else pure (⟨dt, phys, serial, name⟩, r)

/-- APDU.read: the apduLength byte, then apduLength + 1 raw bytes; the
bit-parser splits the first two of them into 6 bits TPCI, 4 bits APCI index
and 6 bits data; the APCI name is looked up in APCICODES (an index past the
list leaves it unset); the data is the bytes after the word when apduLength
is above 1, else a one-byte buffer holding the embedded 6-bit value. -/
def readAPDU (bs : List Nat) : Except String (APDU × List Nat) := do
  let (len, r) ← readU8 bs
  let raw := r.take (len + 1)
  let rest := r.drop (len + 1)
  match raw with
  | b0 :: b1 :: _ =>
    let tpci := b0 / 4
    let idx := b0 % 4 * 4 + b1 / 64
    let data6 := b1 % 64
    let data := if len > 1 then ApduData.buf (raw.drop 2)
      else ApduData.buf [data6]
    pure (⟨tpci, APCICODES.get? idx, data, none⟩, rest)
  | _ => .error "binary-parser: buffer shorter than the bit fields"

/-- The ctrlStruct bit parser over the two raw control bytes. -/
def readCtrl (c0 c1 : Nat) : Ctrl :=
  { frameType := c0 / 128 % 2
    reserved := c0 / 64 % 2
    «repeat» := c0 / 32 % 2
    broadcast := c0 / 16 % 2
    priority := c0 / 4 % 4
    acknowledge := c0 / 2 % 2
    confirm := c0 % 2
    destAddrType := c1 / 128 % 2
    hopCount := c1 / 16 % 8
    extendedFrame := c1 % 16 }

/-- CEMI.read: msgcode, addinfo length, the two control bytes, the two-byte
source and destination addresses (the address codec needs exactly two bytes),
then an APDU exactly for the L_Data primitives. -/
def readCEMI (bs : List Nat) : Except String (CEMI × List Nat) := do
  let (mc, r) ← readU8 bs
  let (ai, r) ← readU8 r
  match r.take 2, r.drop 2 with
  | [c0, c1], r =>
    match r.take 2, r.drop 2 with
    | [s0, s1], r =>
      match r.take 2, r.drop 2 with
      | [d0, d1], r =>
        let base : CEMI :=
          { msgcode := mc, addinfoLength := some ai, ctrl := readCtrl c0 c1,
            srcAddr := s0 * 256 + s1, destAddr := d0 * 256 + d1, apdu := none }
        if msgcodeHasAPDU mc then do
          let (a, r) ← readAPDU r
          pure ({ base with apdu := some a }, r)
        else pure (base, r)
      | _, _ => .error "Address: invalid buffer length"
    | _, _ => .error "Address: invalid buffer length"
  | _, _ => .error "binary-parser: buffer shorter than the bit fields"

/-- The reader's guard expression buffer.length + headerLength <
this.totalLength: this.totalLength is not a property of the reader object
(the parsed header lives in hdr), so the right-hand side is undefined and
the JS comparison is always false. -/
def ltUndefined (_n : Nat) (rhs : Option Nat) : Bool :=
  match rhs with
  | none => false
  | some m => _n < m

/-- KNXNetHeader.read: the six header bytes, the (ineffective) incomplete-
packet guard, then the service-typed body dispatch; an unrecognised service
type only logs a warning and yields the bare header value.  The result is
the canonical frame value (header constants and totalLength dropped). -/
def readKNXNetHeader (bs : List Nat) : Except String Datagram := do
  let fullLen := bs.length
  let (hl, r) ← readU8 bs
  let (_pv, r) ← readU8 r
  let (st, r) ← readU16BE r
  let (tl, r) ← readU16BE r
  if ltUndefined (fullLen + hl) none then .error "Incomplete KNXNet packet"
  else
  let base : Datagram :=
    { serviceType := st, hpai := none, tunn := none, cri := none,
      connstate := none, tunnstate := none, cemi := none, devinfo := none,
      descval := none }
  if st = SERVICE_TYPE_SEARCH_REQUEST ∨ st = SERVICE_TYPE_CONNECT_REQUEST then do
    let (h, r) ← readHPAI fullLen r
    let (t, r) ← readHPAI fullLen r
    let (c, _r) ← readCRI r
    pure { base with hpai := some h, tunn := some t, cri := some c }
  else if st = SERVICE_TYPE_SEARCH_RESPONSE then do
    let (h, r) ← readHPAI fullLen r
    let (d, _r) ← readDIBdevinfo fullLen r
    pure { base with hpai := some h, devinfo := some d }
  else if st = SERVICE_TYPE_CONNECT_RESPONSE ∨
      st = SERVICE_TYPE_CONNECTIONSTATE_REQUEST ∨
      st = SERVICE_TYPE_CONNECTIONSTATE_RESPONSE ∨
      st = SERVICE_TYPE_DISCONNECT_REQUEST ∨
      st = SERVICE_TYPE_DISCONNECT_RESPONSE then do
    let (cs, r) ← readConnState r
    if tl > 8 then do
      let (h, r) ← readHPAI fullLen r
      if tl > 16 then do
        let (c, _r) ← readCRI r
        pure { base with connstate := some cs, hpai := some h, cri := some c }
      else pure { base with connstate := some cs, hpai := some h }
    else pure { base with connstate := some cs }
  else if st = SERVICE_TYPE_DESCRIPTION_RESPONSE then
    pure { base with descval := some (r.take tl) }
  else if st = SERVICE_TYPE_TUNNELING_REQUEST then do
    let (t, r) ← readTunnState r
    let (c, _r) ← readCEMI r
    pure { base with tunnstate := some t, cemi := some c }
  else if st = SERVICE_TYPE_TUNNELING_ACK then do
    let (t, _r) ← readTunnState r
    pure { base with tunnstate := some t }
  else if st = SERVICE_TYPE_ROUTING_INDICATION then do
    let (c, _r) ← readCEMI r
    pure { base with cemi := some c }
  else pure base

deriving instance DecidableEq for Except

/-- Modelled from the spec: the default physAddr "15.15.15" as its 16-bit
wire value (4/4/8-bit physical address components). -/
def PHYS_ADDR_DEFAULT : Nat := 15 * 4096 + 15 * 256 + 15

/-- The datagram builder options recognised by KnxDatagram (defaults of the
constructor), with addresses at their 16-bit wire value. -/
structure BuildOptions where
  suppress_ack_ldatareq : Bool := true
  use_tunneling : Bool := true
  physAddr : Nat := PHYS_ADDR_DEFAULT
  deriving DecidableEq, Repr

/-- addHPAI / addTunn: protocol UDP, endpoint 0.0.0.0:0. -/
def defaultHPAI : HPAI :=
  { protocolType := 1, tunnelEndpoint := ⟨0, 0, 0, 0, 0⟩ }

/-- addCRI: tunnel connection, link layer, reserved 0. -/
def defaultCRI : CRI :=
  { connectionType := CONNECTION_TYPE_TUNNEL_CONNECTION
    knxLayer := KNX_LAYER_LINK_LAYER
    unused := 0 }

/-- addConnState: only the channel id is set (the dead `state` key is not a
`status` and ConnState.write serialises the unset status). -/
def addConnState (chan : Option Nat) : ConnState :=
  { channelId := chan, status := none }

/-- addTunnState: only the channel id is set; seqnum is filled in later by
setSeqNum and status never; the unserialised tunnelEndpoint key is
omitted. -/
def addTunnState (chan : Option Nat) : TunnState :=
  { channelId := chan, seqnum := none, status := none }

/-- addCEMI: the default L_Data skeleton (standard frame, do-not-repeat,
broadcast, low priority, group destination, hop count 6; GroupValue_Write
APDU with numeric payload 0; destination 0/0/0). -/
def addCEMI (opts : BuildOptions) (msgcode : Nat) : CEMI :=
  let sendAck := msgcode = MESSAGECODE_L_Data_req ∧
    opts.suppress_ack_ldatareq = false
  { msgcode := msgcode
    addinfoLength := none
    ctrl :=
      { frameType := 1
        reserved := 0
        «repeat» := 1
        broadcast := 1
        priority := 3
        acknowledge := if sendAck then 1 else 0
        confirm := 0
        destAddrType := 1
        hopCount := 6
        extendedFrame := 0 }
    srcAddr := opts.physAddr
    destAddr := 0
    apdu := some
      { tpci := 0, apci := some "GroupValue_Write", data := .num 0,
        bitlength := none } }

/-- The empty datagram value before buildDatagram adds substructures. -/
def emptyDatagram (svc : Nat) : Datagram :=
  { serviceType := svc
    hpai := none
    tunn := none
    cri := none
    connstate := none
    tunnstate := none
    cemi := none
    devinfo := none
    descval := none }

/-- buildDatagram: the header skeleton plus addHPAI, then the service-typed
substructures (CONNECT_REQUEST falls through to addConnState). -/
def buildDatagram (svc : Nat) (opts : BuildOptions) (chan : Option Nat) :
    Datagram :=
  let base := { emptyDatagram svc with hpai := some defaultHPAI }
  if svc = SERVICE_TYPE_SEARCH_REQUEST then base
  else if svc = SERVICE_TYPE_CONNECT_REQUEST then
    { base with
      tunn := some defaultHPAI
      cri := some defaultCRI
      connstate := some (addConnState chan) }
  else if svc = SERVICE_TYPE_CONNECTIONSTATE_REQUEST ∨
      svc = SERVICE_TYPE_DISCONNECT_REQUEST then
    { base with connstate := some (addConnState chan) }
  else if svc = SERVICE_TYPE_ROUTING_INDICATION then
    { base with cemi := some (addCEMI opts MESSAGECODE_L_Data_ind) }
  else if svc = SERVICE_TYPE_TUNNELING_REQUEST then
    { base with
      tunn := some defaultHPAI
      tunnstate := some (addTunnState chan)
      cemi := some (addCEMI opts MESSAGECODE_L_Data_req) }
  else if svc = SERVICE_TYPE_TUNNELING_ACK then
    { base with tunnstate := some (addTunnState chan) }
  else base

/-- getSeqNum over the datagram's tunnstate: seqnum || -1, so an unset
seqnum and the stored value 0 both yield -1 (JS falsiness). -/
def getSeqNum (t : TunnState) : Int :=
  match t.seqnum with
  | some n => if n = 0 then -1 else (n : Int)
  | none => -1

/-- setSeqNum over the datagram's tunnstate. -/
def setSeqNum (seqnum : Nat) (t : TunnState) : TunnState :=
  { t with seqnum := some seqnum }

/-- setSeqNum lifted to a whole datagram (the JS method mutates
this.datagram.tunnstate and throws when the tunnstate is missing; the
datagrams it is called on always carry one). -/
def setSeqNumD (seqnum : Nat) (d : Datagram) : Datagram :=
  { d with tunnstate := d.tunnstate.map (setSeqNum seqnum) }

/-- makeReadRequest: retarget the skeleton to TUNNELING_REQUEST or
ROUTING_INDICATION per use_tunneling, set the APCI to GroupValue_Read and
the destination group address (the other substructures stay). -/
def makeReadRequest (opts : BuildOptions) (grpaddr : Nat) (d : Datagram) :
    Datagram :=
  let st := if opts.use_tunneling then SERVICE_TYPE_TUNNELING_REQUEST
    else SERVICE_TYPE_ROUTING_INDICATION
  { d with
    serviceType := st
    cemi := d.cemi.map (fun c =>
      { c with
        destAddr := grpaddr
        apdu := c.apdu.map (fun a =>
          { a with apci := some "GroupValue_Read" }) }) }

/-- parseKnxMessage: decode the buffer (decode errors drop the frame), then
drop it silently when the session has a channel id and the frame carries a
ConnState or TunnState whose channel id differs from it. -/
def parseKnxMessage (channelID : Option Nat) (msg : List Nat) :
    Option Datagram :=
  match readKNXNetHeader msg with
  | .error _ => none
  | .ok dg =>
    let drop := match channelID with
      | none => false
      | some c =>
        (match dg.connstate with
          | some cs => decide (cs.channelId ≠ some c)
          | none => false) ||
        (match dg.tunnstate with
          | some ts => decide (ts.channelId ≠ some c)
          | none => false)
    if drop then none else some dg

/-- The 0.0.0.0:0 endpoint meaning "use the sender's real endpoint". -/
def zeroEndpoint : IPv4Endpoint := ⟨0, 0, 0, 0, 0⟩

/-- The discovery socket message handler of _startSearch: parse, then
substitute the datagram's source address and port into an HPAI carrying
0.0.0.0:0 before handing the frame to the FSM.  A frame without an HPAI
would make the JS substitution check throw, aborting the callback before
any FSM input is raised; modelled as producing nothing. -/
def discoverSocketParse (channelID : Option Nat) (msg : List Nat)
    (rinfo : IPv4Endpoint) : Option Datagram :=
  match parseKnxMessage channelID msg with
  | none => none
  | some dg =>
    match dg.hpai with
    | some h =>
      if h.tunnelEndpoint = zeroEndpoint then
        some { dg with hpai := some { h with tunnelEndpoint := rinfo } }
      else some dg
    | none => none

/-- The control socket message handler of _startConnect: parse and hand the
frame to the FSM unchanged; it performs no endpoint substitution. -/
def controlSocketParse (channelID : Option Nat) (msg : List Nat)
    (_rinfo : IPv4Endpoint) : Option Datagram :=
  parseKnxMessage channelID msg

/-- The user-observable events emitted for an accepted inbound L_Data
frame: the apci_dest, event_dest and event emissions with their payloads. -/
inductive UserEvent where
  | apciDest (apci : Option String) (dest : Nat) (src : Nat) (data : ApduData)
  | eventDest (dest : Nat) (apci : Option String) (src : Nat) (data : ApduData)
  | event (apci : Option String) (src : Nat) (dest : Nat) (data : ApduData)
  deriving DecidableEq, Repr

/-- The outcome of the inbound_TUNNELING_REQUEST_L_Data entry handler: the
ACK datagram sent (if any), the new inbound sequence number, and the user
events emitted. -/
structure LDataActions where
  ack : Option Datagram
  newInboundSeqNum : Nat
  events : List UserEvent
  deriving DecidableEq, Repr

/-- The inbound_TUNNELING_REQUEST_L_Data entry handler: when the frame's
seqnum equals the expected inbound value or its predecessor modulo 256, a
TUNNELING_ACK skeleton is built and stamped with the frame's seqnum and
sent; exactly when the seqnum equals the expected value, the inbound
counter advances modulo 256 and the three user events are emitted; any
other seqnum is ignored with a warning. -/
def inbound_TUNNELING_REQUEST_L_Data (opts : BuildOptions)
    (chan : Option Nat) (inSeq : Nat) (dg : Datagram) : LDataActions :=
  let seqOpt := dg.tunnstate.bind TunnState.seqnum
  if seqOpt = some inSeq ∨ seqOpt = some ((inSeq + 255) % 256) then
    let ack0 := buildDatagram SERVICE_TYPE_TUNNELING_ACK opts chan
    let ack := { ack0 with
      tunnstate := ack0.tunnstate.map (fun t => { t with seqnum := seqOpt }) }
    if seqOpt = some inSeq then
      let apci := (dg.cemi.bind CEMI.apdu).map APDU.apci |>.join
      let data := ((dg.cemi.bind CEMI.apdu).map APDU.data).getD (.num 0)
      let src := (dg.cemi.map CEMI.srcAddr).getD 0
      let dest := (dg.cemi.map CEMI.destAddr).getD 0
      { ack := some ack
        newInboundSeqNum := (inSeq + 1) % 256
        events :=
          [.apciDest apci dest src data,
           .eventDest dest apci src data,
           .event apci src dest data] }
    else { ack := some ack, newInboundSeqNum := inSeq, events := [] }
  else { ack := none, newInboundSeqNum := inSeq, events := [] }

/-- The sequence-counter fragment of the FSM session state. -/
structure SeqState where
  inboundSeqNum : Nat
  outboundSeqNum : Nat
  deriving DecidableEq, Repr

/-- initialize: both counters start at 0. -/
def initSeqState : SeqState := ⟨0, 0⟩

/-- The FSM inputs that can touch the sequence counters: entering the
connected state, an inbound tunneling L_Data frame, an inbound
TUNNELING_ACK (none models the ACK timer firing), and everything else. -/
inductive FsmEvent where
  | enterConnected
  | inboundLData (dg : Datagram)
  | inboundAck (dg : Option Datagram)
  | other
  deriving DecidableEq, Repr

/-- The inbound_TUNNELING_ACK handler's effect on the outbound counter: it
advances modulo 256 exactly when the ACK's seqnum equals the current
outbound value and its status maps to NO_ERROR; a timeout, an error status
or a mismatched seqnum leave it unchanged. -/
def inbound_TUNNELING_ACK_step (s : SeqState) (dg : Option Datagram) :
    SeqState :=
  match dg with
  | none => s
  | some dg =>
    let seqOpt := dg.tunnstate.bind TunnState.seqnum
    if seqOpt = some s.outboundSeqNum then
      let noErr := match dg.tunnstate.bind TunnState.status with
        | some st => responseIsNoError st
        | none => false
      if noErr then
        { s with outboundSeqNum := (s.outboundSeqNum + 1) % 256 }
      else s
    else s

/-- One step of the sequence counters under an FSM input: connected entry
resets both to 0, an inbound L_Data advances the inbound counter per its
handler, a TUNNELING_ACK advances the outbound counter per its handler,
anything else leaves them unchanged. -/
def seqStep (opts : BuildOptions) (chan : Option Nat) (s : SeqState)
    (e : FsmEvent) : SeqState :=
  match e with
  | .enterConnected => ⟨0, 0⟩
  | .inboundLData dg =>
    { s with inboundSeqNum :=
        (inbound_TUNNELING_REQUEST_L_Data opts chan s.inboundSeqNum
          dg).newInboundSeqNum }
  | .inboundAck dg => inbound_TUNNELING_ACK_step s dg
  | .other => s

/-- Folding a list of FSM inputs over the sequence counters. -/
def seqRun (opts : BuildOptions) (chan : Option Nat) (s : SeqState)
    (evs : List FsmEvent) : SeqState :=
  evs.foldl (seqStep opts chan) s

/-- A gateway ACK echoing the given sequence number with NO_ERROR status. -/
def gatewayAck (seq : Nat) : Datagram :=
  { emptyDatagram SERVICE_TYPE_TUNNELING_ACK with
    tunnstate := some ⟨some 0, some seq, some RESPONSECODE_NO_ERROR⟩ }

/-- The inputs of n successful request/ACK round-trips when the outbound
counter currently reads start: each ACK echoes the then-current value. -/
def ackRounds (start : Nat) : Nat → List FsmEvent
  | 0 => []
  | n + 1 => .inboundAck (some (gatewayAck start)) ::
      ackRounds ((start + 1) % 256) n

/-- The 6-byte buffer of a KNXNet header announcing a 100-byte frame of an
unrecognised service type (0x0203), with no body bytes at all. -/
def shortHeaderOnlyBuffer : List Nat := [6, 16, 2, 3, 0, 100]

/-- The datagram builder's TUNNELING_REQUEST skeleton retargeted to
ROUTING_INDICATION by a read request with use_tunneling disabled: it keeps
its tunnstate substructure. -/
def retargetedSkeleton : Datagram :=
  makeReadRequest { use_tunneling := false } 0x0102
    (buildDatagram SERVICE_TYPE_TUNNELING_REQUEST { use_tunneling := false }
      (some 7))

/-- The totalLength field of an emitted frame: bytes 4 and 5, big endian. -/
def headerTotalLength : List Nat → Option Nat
  | _ :: _ :: _ :: _ :: t0 :: t1 :: _ => some (t0 * 256 + t1)
  | _ => none

/-- Membership of the known APCI enumeration, as the writer tests it. -/
def apciKnown (a : Option String) : Bool :=
  match a with
  | some s => APCICODES.contains s
  | none => false

/-- A CONNECT_RESPONSE on the wire: channel 7, status 0, HPAI carrying the
wildcard endpoint 0.0.0.0:0, and a tunneling CRI. -/
def msgConnRespZero : List Nat :=
  [6, 16, 2, 6, 0, 20, 7, 0, 8, 1, 0, 0, 0, 0, 0, 0, 4, 4, 2, 0]

/-- The datagram's source endpoint as reported by the UDP socket. -/
def rinfoSender : IPv4Endpoint := ⟨192, 168, 1, 10, 3671⟩

/-- The frame value parsed from msgConnRespZero. -/
def parsedConnResp : Datagram :=
  { emptyDatagram SERVICE_TYPE_CONNECT_RESPONSE with
    hpai := some ⟨PROTOCOL_TYPE_IPV4_UDP, zeroEndpoint⟩
    cri := some defaultCRI
    connstate := some ⟨some 7, some 0⟩ }

/-- A SEARCH_RESPONSE on the wire: HPAI carrying 0.0.0.0:0, then the
54-byte device info block (physical address 1.1.220, serial 010203040506,
name thirty letters A). -/
def msgSearchResp : List Nat :=
  [6, 16, 2, 2, 0, 68,
   8, 1, 0, 0, 0, 0, 0, 0,
   54, 1, 0, 0, 17, 220, 0, 0, 1, 2, 3, 4, 5, 6, 0, 0, 0, 0,
   0, 0, 0, 0, 0, 0] ++ List.replicate 30 65

/-- The frame value parsed from msgSearchResp. -/
def dgSearchResp : Datagram :=
  { emptyDatagram SERVICE_TYPE_SEARCH_RESPONSE with
    hpai := some ⟨PROTOCOL_TYPE_IPV4_UDP, zeroEndpoint⟩
    devinfo := some ⟨1, [17, 220], [1, 2, 3, 4, 5, 6], List.replicate 30 65⟩ }

/-- An inbound L_Data.ind tunneling frame for channel 7 with seqnum 0. -/
def inboundLDataDg : Datagram :=
  { emptyDatagram SERVICE_TYPE_TUNNELING_REQUEST with
    tunnstate := some ⟨some 7, some 0, some 0⟩
    cemi := some (addCEMI {} MESSAGECODE_L_Data_ind) }

/-- An endpoint whose octets are bytes and whose port fits 16 bits. -/
def wfEndpoint (e : IPv4Endpoint) : Bool :=
  e.a < 256 && e.b < 256 && e.c < 256 && e.d < 256 && e.port < 65536

/-- An HPAI the reader accepts back: byte-sized protocol, not TCP. -/
def wfHPAI (h : HPAI) : Bool :=
  h.protocolType < 256 && !(h.protocolType == PROTOCOL_TYPE_IPV4_TCP) &&
    wfEndpoint h.tunnelEndpoint

/-- A CRI the reader accepts back: a known connection type, byte fields. -/
def wfCRI (c : CRI) : Bool :=
  (c.connectionType == CONNECTION_TYPE_DEVICE_MGMT_CONNECTION ||
    c.connectionType == CONNECTION_TYPE_TUNNEL_CONNECTION) &&
  c.knxLayer < 256 && c.unused < 256

/-- A JS field that is present and byte-sized. -/
def wfOptByte : Option Nat → Bool
  | some n => n < 256
  | none => false

/-- A ConnState with both fields present and byte-sized. -/
def wfConnState (c : ConnState) : Bool :=
  wfOptByte c.channelId && wfOptByte c.status

/-- A TunnState with all three fields present and byte-sized. -/
def wfTunnState (t : TunnState) : Bool :=
  wfOptByte t.channelId && wfOptByte t.seqnum && wfOptByte t.status

/-- Control bits within their widths. -/
def wfCtrl (c : Ctrl) : Bool :=
  c.frameType < 2 && c.reserved < 2 && c.«repeat» < 2 && c.broadcast < 2 &&
    c.priority < 4 && c.acknowledge < 2 && c.confirm < 2 &&
    c.destAddrType < 2 && c.hopCount < 8 && c.extendedFrame < 16

/-- An APDU in the reader's canonical form: 6-bit TPCI, a known APCI, no
bitlength override, and a buffer payload of 1 to 14 bytes (the reader
always returns the payload as a buffer, even for 6-bit values). -/
def wfAPDU (a : APDU) : Bool :=
  a.tpci < 64 && apciKnown a.apci && a.bitlength.isNone &&
  (match a.data with
   | .buf bs => decide (1 ≤ bs.length) && decide (bs.length ≤ 14) &&
       bs.all (fun b => b < 256)
   | .num _ => false)

/-- A CEMI whose fields are in range and whose APDU is present exactly for
the L_Data message codes. -/
def wfCEMI (c : CEMI) : Bool :=
  c.msgcode < 256 && wfOptByte c.addinfoLength && wfCtrl c.ctrl &&
    c.srcAddr < 65536 && c.destAddr < 65536 &&
  (match c.apdu with
   | some a => msgcodeHasAPDU c.msgcode && wfAPDU a
   | none => !msgcodeHasAPDU c.msgcode)

/-- A frame value that carries exactly the substructures its service type
serialises (the reader's canonical shape), with all fields in range.  The
supported service types are those both the writer and the reader handle,
except SEARCH_RESPONSE, whose body the writer cannot produce. -/
def wfDatagram (v : Datagram) : Bool :=
  if v.serviceType == SERVICE_TYPE_SEARCH_REQUEST ||
      v.serviceType == SERVICE_TYPE_CONNECT_REQUEST then
    (match v.hpai, v.tunn, v.cri with
     | some h, some tn, some c => wfHPAI h && wfHPAI tn && wfCRI c
     | _, _, _ => false) &&
    v.connstate.isNone && v.tunnstate.isNone && v.cemi.isNone &&
    v.devinfo.isNone && v.descval.isNone
  else if v.serviceType == SERVICE_TYPE_CONNECT_RESPONSE ||
      v.serviceType == SERVICE_TYPE_CONNECTIONSTATE_REQUEST ||
      v.serviceType == SERVICE_TYPE_CONNECTIONSTATE_RESPONSE ||
      v.serviceType == SERVICE_TYPE_DISCONNECT_REQUEST then
    (match v.connstate, v.hpai, v.cri with
     | some cs, some h, some c => wfConnState cs && wfHPAI h && wfCRI c
     | some cs, some h, none => wfConnState cs && wfHPAI h
     | some cs, none, none => wfConnState cs
     | _, _, _ => false) &&
    v.tunn.isNone && v.tunnstate.isNone && v.cemi.isNone &&
    v.devinfo.isNone && v.descval.isNone
  else if v.serviceType == SERVICE_TYPE_TUNNELING_REQUEST then
    (match v.tunnstate, v.cemi with
     | some t, some c => wfTunnState t && wfCEMI c
     | _, _ => false) &&
    v.hpai.isNone && v.tunn.isNone && v.cri.isNone && v.connstate.isNone &&
    v.devinfo.isNone && v.descval.isNone
  else if v.serviceType == SERVICE_TYPE_TUNNELING_ACK then
    (match v.tunnstate with
     | some t => wfTunnState t
     | none => false) &&
    v.hpai.isNone && v.tunn.isNone && v.cri.isNone && v.connstate.isNone &&
    v.cemi.isNone && v.devinfo.isNone && v.descval.isNone
  else if v.serviceType == SERVICE_TYPE_ROUTING_INDICATION then
    (match v.cemi with
     | some c => wfCEMI c
     | none => false) &&
    v.hpai.isNone && v.tunn.isNone && v.cri.isNone && v.connstate.isNone &&
    v.tunnstate.isNone && v.devinfo.isNone && v.descval.isNone
  else false

/-- A SEARCH_RESPONSE frame value: HPAI plus device info, the shape the
reader produces for that service type. -/
def searchRespValue : Datagram :=
  { emptyDatagram SERVICE_TYPE_SEARCH_RESPONSE with
    hpai := some ⟨PROTOCOL_TYPE_IPV4_UDP, rinfoSender⟩
    devinfo := some ⟨1, [17, 220], [1, 2, 3, 4, 5, 6], List.replicate 30 65⟩ }

/-- A well-formed CONNECT_REQUEST frame value. -/
def connReqValue : Datagram :=
  { emptyDatagram SERVICE_TYPE_CONNECT_REQUEST with
    hpai := some ⟨PROTOCOL_TYPE_IPV4_UDP, rinfoSender⟩
    tunn := some ⟨PROTOCOL_TYPE_IPV4_UDP, zeroEndpoint⟩
    cri := some defaultCRI }

/-! ## Claim theorems -/

/-- C10: for every datagram whose tunnstate sequence number has been set to
0, getSeqNum returns -1, not 0; it returns the stored sequence number only
when that number is non-zero (seqnum || -1 with JS falsiness). -/
theorem C10_getSeqNum_zero_yields_minus_one (t : TunnState) (n : Nat)
    (h : t.seqnum = some n) :
    getSeqNum (setSeqNum 0 t) = -1 ∧
    getSeqNum t = (if n = 0 then -1 else (n : Int)) := by
  refine ⟨rfl, ?_⟩
  simp [getSeqNum, h]

/-- Witness for C10 at a concrete tunnstate: a stored 0 reads back as -1
and a stored 5 reads back as 5. -/
theorem C10_getSeqNum_zero_yields_minus_one_witness :
    getSeqNum (setSeqNum 0 (addTunnState (some 7))) = -1 ∧
    getSeqNum (setSeqNum 5 (addTunnState (some 7))) = 5 := by
  refine ⟨?_, ?_⟩
  · exact (C10_getSeqNum_zero_yields_minus_one
      (setSeqNum 0 (addTunnState (some 7))) 0 rfl).1
  · have h := (C10_getSeqNum_zero_yields_minus_one
      (setSeqNum 5 (addTunnState (some 7))) 5 rfl).2
    simpa using h

/-- C4: the claim says a buffer whose remainder after the 6-byte header is
shorter than totalLength - headerLength fails with an incomplete-packet
error.  The code's guard compares against this.totalLength, which is not a
property of the reader object, so the comparison is always false and a
94-byte-short buffer parses without any incomplete-packet error. -/
theorem C4_short_buffer_parses_without_error :
    readKNXNetHeader shortHeaderOnlyBuffer = .ok (emptyDatagram 0x0203) ∧
    shortHeaderOnlyBuffer.length - 6 < 100 - 6 := by
  exact ⟨rfl, by decide⟩

/-- C5: the claim says the emitted totalLength always equals the number of
bytes emitted, including for the retargeted ROUTING_INDICATION skeleton.
The writer emits the skeleton's TunnState for ROUTING_INDICATION but
lengths.KNXNetHeader does not count it for that service type, so the header
says 17 while 21 bytes are emitted. -/
theorem C5_retargeted_skeleton_totalLength_mismatch :
    writeBytes retargetedSkeleton =
      .ok [6, 16, 5, 48, 0, 17, 4, 7, 0, 0, 17, 0, 188, 224, 255, 15, 1, 2,
        1, 0, 0] ∧
    headerTotalLength [6, 16, 5, 48, 0, 17, 4, 7, 0, 0, 17, 0, 188, 224,
      255, 15, 1, 2, 1, 0, 0] = some 17 ∧
    ([6, 16, 5, 48, 0, 17, 4, 7, 0, 0, 17, 0, 188, 224, 255, 15, 1, 2,
      1, 0, 0] : List Nat).length = 21 := by
  exact ⟨rfl, rfl, rfl⟩

/-- C6 counterexample: the claim says an APCI code outside the known
enumeration makes the APDU writer throw synchronously; in the code it only
logs an error and returns without writing anything, which is not a throw. -/
theorem C6_unknown_apci_is_skipped_not_thrown :
    writeAPDU ⟨0, some "Bogus", .num 0, none⟩ = .skipped "invalid APCI code" ∧
    ∀ m, writeAPDU ⟨0, some "Bogus", .num 0, none⟩ ≠ .thrown m := by
  refine ⟨rfl, ?_⟩
  intro m h
  rw [show writeAPDU ⟨0, some "Bogus", .num 0, none⟩ =
    .skipped "invalid APCI code" from rfl] at h
  exact WriteResult.noConfusion h

/-- A throw inside the length computation propagates out of APDU.write. -/
theorem writeAPDU_thrown_of_lengths_error (v : APDU) (m : String)
    (h : lengthsAPDU v = .error m) : writeAPDU v = .thrown m := by
  simp [writeAPDU, h]

/-- C6 (amended): writing an APDU throws synchronously for a computed total
APDU length above 17 bytes (or below 3, which the length computation cannot
produce) when the APCI is known, and for a payload that is neither a small
integer in 0..63 nor a 1-14 byte buffer (that throw comes from the length
computation, before the APCI test); an APCI code outside the known
enumeration is instead rejected by logging an error and returning without
writing anything, not by throwing. -/
theorem C6_amended_apdu_write_rejections (v : APDU) (l : Nat) :
    (apciKnown v.apci = false → lengthsAPDU v = .ok l →
      writeAPDU v = .skipped "invalid APCI code") ∧
    (apciKnown v.apci = true → lengthsAPDU v = .ok l → l < 3 →
      writeAPDU v = .thrown "APDU is too small") ∧
    (apciKnown v.apci = true → lengthsAPDU v = .ok l → 17 < l →
      writeAPDU v = .thrown "APDU is too big") ∧
    (v.bitlength = none →
      (v.data = .buf [] → writeAPDU v =
        .thrown
          "APDU payload must be a 6-bit int or an Array/Buffer (1 to 14 bytes)") ∧
      (∀ bs, v.data = .buf bs → 14 < bs.length → writeAPDU v =
        .thrown "APDU value too big, must be <= 14 bytes") ∧
      (∀ n, v.data = .num n → 63 < n → writeAPDU v =
        .thrown
          "APDU payload must be a 6-bit int or an Array/Buffer (1 to 14 bytes)")) := by
  have hidx : apciKnown v.apci = true →
      (match v.apci with
        | some a => APCICODES.indexOf a
        | none => APCICODES.length) < APCICODES.length := by
    intro hk
    cases ha : v.apci with
    | none => simp [apciKnown, ha] at hk
    | some a =>
      simp only [apciKnown, ha] at hk
      have hmem : a ∈ APCICODES := by simpa using hk
      simpa using List.indexOf_lt_length.mpr hmem
  refine ⟨?_, ?_, ?_, ?_⟩
  · intro hk hlen
    have hge : (match v.apci with
        | some a => APCICODES.indexOf a
        | none => APCICODES.length) ≥ APCICODES.length := by
      cases ha : v.apci with
      | none => simp
      | some a =>
        simp only [apciKnown, ha] at hk
        have hnm : a ∉ APCICODES := by
          intro hmem
          simp [hmem] at hk
        simp [List.indexOf_eq_length.mpr hnm]
    simp [writeAPDU, hlen, hge]
  · intro hk hlen hl
    have hlt := hidx hk
    simp only [writeAPDU, hlen]
    rw [if_neg (by omega), if_pos hl]
  · intro hk hlen hl
    have hlt := hidx hk
    simp only [writeAPDU, hlen]
    rw [if_neg (by omega), if_neg (by omega), if_pos hl]
  · intro hbl
    refine ⟨?_, ?_, ?_⟩
    · intro hd
      refine writeAPDU_thrown_of_lengths_error v _ ?_
      simp [lengthsAPDU, hbl, hd, lengthsAPDU.lengthsAPDUdata]
    · intro bs hd hlong
      refine writeAPDU_thrown_of_lengths_error v _ ?_
      cases bs with
      | nil => simp at hlong
      | cons b tl =>
        simp only [lengthsAPDU, hbl, hd, lengthsAPDU.lengthsAPDUdata]
        rw [if_pos (by omega)]
    · intro n hd hn
      refine writeAPDU_thrown_of_lengths_error v _ ?_
      simp only [lengthsAPDU, hbl, hd, lengthsAPDU.lengthsAPDUdata]
      rw [if_neg (by omega)]

/-- Witness for C6: a writeRaw-style payload with bitlength 120 computes a
20-byte APDU and the writer throws. -/
theorem C6_amended_apdu_write_rejections_witness :
    writeAPDU ⟨0, some "GroupValue_Write", .num 0, some 120⟩ =
      .thrown "APDU is too big" :=
  (C6_amended_apdu_write_rejections
      ⟨0, some "GroupValue_Write", .num 0, some 120⟩ 18).2.2.1
    rfl rfl (by omega)

/-- C9 counterexample: the claim says the receiver substitutes the
datagram's source endpoint into a 0.0.0.0:0 HPAI on whichever socket the
frame arrives; on the control socket the frame is handed to the FSM with
the HPAI still carrying 0.0.0.0:0. -/
theorem C9_control_socket_does_not_substitute :
    controlSocketParse none msgConnRespZero rinfoSender =
      some parsedConnResp ∧
    parsedConnResp.hpai = some ⟨PROTOCOL_TYPE_IPV4_UDP, zeroEndpoint⟩ ∧
    rinfoSender ≠ zeroEndpoint := by
  refine ⟨rfl, rfl, by decide⟩

/-- C9 (amended): the discovery socket handler substitutes the datagram's
source address and port into an inbound HPAI carrying 0.0.0.0:0 before
passing the frame upward; the control socket handler passes the parsed
frame upward unchanged, with no substitution. -/
theorem C9_amended_substitution_only_on_discovery_socket :
    (∀ (ch : Option Nat) (msg : List Nat) (rinfo : IPv4Endpoint)
      (dg : Datagram) (h : HPAI),
      parseKnxMessage ch msg = some dg → dg.hpai = some h →
      h.tunnelEndpoint = zeroEndpoint →
      discoverSocketParse ch msg rinfo =
        some { dg with hpai := some { h with tunnelEndpoint := rinfo } }) ∧
    (∀ (ch : Option Nat) (msg : List Nat) (rinfo : IPv4Endpoint),
      controlSocketParse ch msg rinfo = parseKnxMessage ch msg) := by
  constructor
  · intro ch msg rinfo dg h hp hh hz
    simp [discoverSocketParse, hp, hh, hz]
  · intro ch msg rinfo
    rfl

/-- Witness for C9: on the discovery socket a SEARCH_RESPONSE whose HPAI is
0.0.0.0:0 is handed upward with the sender's endpoint substituted. -/
theorem C9_amended_substitution_witness :
    discoverSocketParse none msgSearchResp rinfoSender =
      some { dgSearchResp with
        hpai := some ⟨PROTOCOL_TYPE_IPV4_UDP, rinfoSender⟩ } :=
  C9_amended_substitution_only_on_discovery_socket.1 none msgSearchResp
    rinfoSender dgSearchResp ⟨PROTOCOL_TYPE_IPV4_UDP, zeroEndpoint⟩
    rfl rfl rfl

/-- C8: while the session's channelId is set, an inbound frame carrying a
ConnState or TunnState whose channelId differs is dropped silently (the
parse returns nothing, so no FSM input is raised); a frame whose channelId
matches, and a frame carrying neither substructure, is passed upward. -/
theorem C8_channel_filter (c : Nat) (msg : List Nat) (dg : Datagram)
    (hread : readKNXNetHeader msg = .ok dg) :
    (parseKnxMessage (some c) msg = none ↔
      (∃ cs, dg.connstate = some cs ∧ cs.channelId ≠ some c) ∨
      (∃ ts, dg.tunnstate = some ts ∧ ts.channelId ≠ some c)) ∧
    (parseKnxMessage (some c) msg = some dg ↔
      ¬ ((∃ cs, dg.connstate = some cs ∧ cs.channelId ≠ some c) ∨
        (∃ ts, dg.tunnstate = some ts ∧ ts.channelId ≠ some c))) ∧
    (dg.connstate = none → dg.tunnstate = none →
      parseKnxMessage (some c) msg = some dg) := by
  have hbase : parseKnxMessage (some c) msg =
      (if ((match dg.connstate with
          | some cs => decide (cs.channelId ≠ some c)
          | none => false) ||
        (match dg.tunnstate with
          | some ts => decide (ts.channelId ≠ some c)
          | none => false)) = true then none else some dg) := by
    simp only [parseKnxMessage, hread]
  cases hc : dg.connstate with
  | none =>
    cases ht : dg.tunnstate with
    | none => simp [hbase, hc, ht]
    | some ts =>
      by_cases hch : ts.channelId = some c <;> simp [hbase, hc, ht, hch]
  | some cs =>
    cases ht : dg.tunnstate with
    | none =>
      by_cases hch : cs.channelId = some c <;> simp [hbase, hc, ht, hch]
    | some ts =>
      by_cases hch : cs.channelId = some c <;>
        by_cases hch2 : ts.channelId = some c <;>
        simp [hbase, hc, ht, hch, hch2]

/-- Witness for C8: the CONNECT_RESPONSE for channel 7 is dropped when the
session's channel is 9 and passed upward when it is 7. -/
theorem C8_channel_filter_witness :
    parseKnxMessage (some 9) msgConnRespZero = none ∧
    parseKnxMessage (some 7) msgConnRespZero = some parsedConnResp := by
  constructor
  · exact (C8_channel_filter 9 msgConnRespZero parsedConnResp rfl).1.mpr
      (Or.inl ⟨⟨some 7, some 0⟩, rfl, by decide⟩)
  · refine (C8_channel_filter 7 msgConnRespZero parsedConnResp rfl).2.1.mpr ?_
    rintro (⟨cs, hcs, hne⟩ | ⟨ts, hts, hne⟩)
    · have : cs = ⟨some 7, some 0⟩ := by
        have := hcs
        simp [parsedConnResp, emptyDatagram] at this
        exact this.symm
      exact hne (by simp [this])
    · have := hts
      simp [parsedConnResp, emptyDatagram] at this

/-- The TUNNELING_ACK skeleton the builder produces. -/
theorem buildDatagram_ack_eq (opts : BuildOptions) (chan : Option Nat) :
    buildDatagram SERVICE_TYPE_TUNNELING_ACK opts chan =
      { emptyDatagram SERVICE_TYPE_TUNNELING_ACK with
        hpai := some defaultHPAI
        tunnstate := some (addTunnState chan) } := rfl

/-- C2: for an inbound tunneling L_Data frame, an ACK is produced exactly
when the frame's seqnum equals the expected inbound value or its
predecessor modulo 256; the ACK echoes the frame's seqnum and its
serialised status byte is NO_ERROR (the builder leaves the status unset and
the Buffer write coerces it to 0); the inbound counter advances modulo 256
exactly on an exact match, which is also exactly when user events are
emitted; any other seqnum produces no ACK and no events. -/
theorem C2_inbound_ldata_ack_iff (opts : BuildOptions) (chan : Option Nat)
    (inSeq seq : Nat) (dg : Datagram) (t : TunnState)
    (hseq : seq < 256)
    (hts : dg.tunnstate = some t) (hsn : t.seqnum = some seq) :
    ((inbound_TUNNELING_REQUEST_L_Data opts chan inSeq dg).ack ≠ none ↔
      (seq = inSeq ∨ seq = (inSeq + 255) % 256)) ∧
    (∀ a, (inbound_TUNNELING_REQUEST_L_Data opts chan inSeq dg).ack = some a →
      a.serviceType = SERVICE_TYPE_TUNNELING_ACK ∧
      a.tunnstate = some ⟨chan, some seq, none⟩ ∧
      writeTunnState ⟨chan, some seq, none⟩ =
        [4, jsByte chan, seq, RESPONSECODE_NO_ERROR]) ∧
    ((inbound_TUNNELING_REQUEST_L_Data opts chan inSeq dg).newInboundSeqNum =
      if seq = inSeq then (inSeq + 1) % 256 else inSeq) ∧
    ((inbound_TUNNELING_REQUEST_L_Data opts chan inSeq dg).events ≠ [] ↔
      seq = inSeq) := by
  have hwts : writeTunnState ⟨chan, some seq, none⟩ =
      [4, jsByte chan, seq, RESPONSECODE_NO_ERROR] := by
    simp [writeTunnState, jsByte, Nat.mod_eq_of_lt hseq, RESPONSECODE_NO_ERROR]
  have hseqOpt : dg.tunnstate.bind TunnState.seqnum = some seq := by
    simp [hts, hsn]
  by_cases h1 : seq = inSeq
  · simp only [inbound_TUNNELING_REQUEST_L_Data, hseqOpt,
      buildDatagram_ack_eq, h1]
    simp [addTunnState, emptyDatagram, hwts, h1 ▸ hwts]
  · by_cases h2 : seq = (inSeq + 255) % 256
    · have h3 : ¬((inSeq + 255) % 256 = inSeq) := h2 ▸ h1
      simp only [inbound_TUNNELING_REQUEST_L_Data, hseqOpt,
        buildDatagram_ack_eq]
      simp [h1, h2, h3, addTunnState, emptyDatagram, hwts, h2 ▸ hwts]
    · simp only [inbound_TUNNELING_REQUEST_L_Data, hseqOpt]
      simp [h1, h2]

/-- Witness for C2: with expected inbound 0, the seqnum-0 frame is ACKed
and the inbound counter advances to 1. -/
theorem C2_inbound_ldata_ack_iff_witness :
    (inbound_TUNNELING_REQUEST_L_Data {} (some 7) 0 inboundLDataDg).ack ≠
      none ∧
    (inbound_TUNNELING_REQUEST_L_Data {} (some 7) 0
      inboundLDataDg).newInboundSeqNum = 1 := by
  have h := C2_inbound_ldata_ack_iff {} (some 7) 0 0 inboundLDataDg
    ⟨some 7, some 0, some 0⟩ (by decide) rfl rfl
  exact ⟨h.1.mpr (Or.inl rfl), by simpa using h.2.2.1⟩

/-- The inbound L_Data handler either advances the inbound counter modulo
256 or leaves it alone. -/
theorem ldata_newInbound_cases (opts : BuildOptions) (chan : Option Nat)
    (inSeq : Nat) (dg : Datagram) :
    (inbound_TUNNELING_REQUEST_L_Data opts chan inSeq dg).newInboundSeqNum =
      (inSeq + 1) % 256 ∨
    (inbound_TUNNELING_REQUEST_L_Data opts chan inSeq dg).newInboundSeqNum =
      inSeq := by
  simp only [inbound_TUNNELING_REQUEST_L_Data]
  split
  · split
    · exact Or.inl rfl
    · exact Or.inr rfl
  · exact Or.inr rfl

/-- The TUNNELING_ACK handler either leaves the state alone or advances
the outbound counter modulo 256. -/
theorem ack_step_cases (s : SeqState) (dg : Option Datagram) :
    inbound_TUNNELING_ACK_step s dg = s ∨
    inbound_TUNNELING_ACK_step s dg =
      { s with outboundSeqNum := (s.outboundSeqNum + 1) % 256 } := by
  cases dg with
  | none => exact Or.inl rfl
  | some d =>
    simp only [inbound_TUNNELING_ACK_step]
    split
    · split
      · exact Or.inr rfl
      · exact Or.inl rfl
    · exact Or.inl rfl

/-- One FSM step keeps both counters below 256. -/
theorem seqStep_bounds (opts : BuildOptions) (chan : Option Nat)
    (s : SeqState) (e : FsmEvent)
    (h1 : s.inboundSeqNum < 256) (h2 : s.outboundSeqNum < 256) :
    (seqStep opts chan s e).inboundSeqNum < 256 ∧
    (seqStep opts chan s e).outboundSeqNum < 256 := by
  cases e with
  | enterConnected => exact ⟨by norm_num [seqStep], by norm_num [seqStep]⟩
  | inboundLData dg =>
    rcases ldata_newInbound_cases opts chan s.inboundSeqNum dg with h | h <;>
      exact ⟨by simp only [seqStep, h]; omega, h2⟩
  | inboundAck dg =>
    have hs : seqStep opts chan s (.inboundAck dg) =
        inbound_TUNNELING_ACK_step s dg := rfl
    rcases ack_step_cases s dg with h | h <;> rw [hs, h]
    · exact ⟨h1, h2⟩
    · exact ⟨h1, Nat.mod_lt _ (by omega)⟩
  | other => exact ⟨h1, h2⟩

/-- Folding FSM inputs keeps both counters below 256. -/
theorem seqRun_bounds (opts : BuildOptions) (chan : Option Nat)
    (evs : List FsmEvent) : ∀ s : SeqState,
    s.inboundSeqNum < 256 → s.outboundSeqNum < 256 →
    (seqRun opts chan s evs).inboundSeqNum < 256 ∧
    (seqRun opts chan s evs).outboundSeqNum < 256 := by
  induction evs with
  | nil => exact fun s h1 h2 => ⟨h1, h2⟩
  | cons e tl ih =>
    intro s h1 h2
    have hb := seqStep_bounds opts chan s e h1 h2
    simpa [seqRun, List.foldl] using ih (seqStep opts chan s e) hb.1 hb.2

/-- N successful ACK round-trips advance the outbound counter by N modulo
256. -/
theorem seqRun_ackRounds (opts : BuildOptions) (chan : Option Nat)
    (N : Nat) : ∀ (start : Nat) (s : SeqState),
    s.outboundSeqNum = start → start < 256 →
    (seqRun opts chan s (ackRounds start N)).outboundSeqNum =
      (start + N) % 256 := by
  induction N with
  | zero =>
    intro start s hs hlt
    simp [ackRounds, seqRun, hs, Nat.mod_eq_of_lt hlt]
  | succ n ih =>
    intro start s hs hlt
    have hstep : seqStep opts chan s (.inboundAck (some (gatewayAck start))) =
        { s with outboundSeqNum := (start + 1) % 256 } := by
      simp [seqStep, inbound_TUNNELING_ACK_step, gatewayAck, emptyDatagram,
        hs, responseIsNoError, RESPONSECODE_NO_ERROR]
    have htail : seqRun opts chan s (ackRounds start (n + 1)) =
        seqRun opts chan { s with outboundSeqNum := (start + 1) % 256 }
          (ackRounds ((start + 1) % 256) n) := by
      simp [ackRounds, seqRun, List.foldl, hstep]
    rw [htail, ih ((start + 1) % 256) _ rfl (Nat.mod_lt _ (by omega))]
    omega

/-- C3: from initialisation, the inbound and outbound sequence counters
always remain in [0,255]; entering the connected state resets both to 0;
the outbound counter changes only on entering connected or on a
TUNNELING_ACK echoing the current outbound value with NO_ERROR status, in
which case it advances modulo 256; and N successful request/ACK
round-trips from connected-entry leave it at N modulo 256. -/
theorem C3_sequence_counters (opts : BuildOptions) (chan : Option Nat) :
    (∀ evs, (seqRun opts chan initSeqState evs).inboundSeqNum < 256 ∧
      (seqRun opts chan initSeqState evs).outboundSeqNum < 256) ∧
    (∀ s : SeqState, seqStep opts chan s .enterConnected = ⟨0, 0⟩) ∧
    (∀ (s : SeqState) (e : FsmEvent), s.outboundSeqNum < 256 →
      (seqStep opts chan s e).outboundSeqNum ≠ s.outboundSeqNum →
      e = .enterConnected ∨
      (∃ d t, e = .inboundAck (some d) ∧ d.tunnstate = some t ∧
        t.seqnum = some s.outboundSeqNum ∧
        t.status = some RESPONSECODE_NO_ERROR ∧
        (seqStep opts chan s e).outboundSeqNum =
          (s.outboundSeqNum + 1) % 256)) ∧
    (∀ (s : SeqState) (N : Nat),
      (seqRun opts chan (seqStep opts chan s .enterConnected)
        (ackRounds 0 N)).outboundSeqNum = N % 256) := by
  refine ⟨?_, fun s => rfl, ?_, ?_⟩
  · exact fun evs => seqRun_bounds opts chan evs initSeqState
      (by decide) (by decide)
  · intro s e hb hne
    cases e with
    | enterConnected => exact Or.inl rfl
    | inboundLData dg => exact absurd rfl hne
    | other => exact absurd rfl hne
    | inboundAck dgo =>
      cases dgo with
      | none => exact absurd rfl hne
      | some d =>
        refine Or.inr ?_
        simp only [seqStep, inbound_TUNNELING_ACK_step] at hne ⊢
        by_cases hseq : d.tunnstate.bind TunnState.seqnum =
            some s.outboundSeqNum
        · obtain ⟨t, ht, htseq⟩ := Option.bind_eq_some.mp hseq
          rw [if_pos hseq] at hne ⊢
          cases hst : t.status with
          | none =>
            rw [ht] at hne
            simp only [Option.bind, hst] at hne
            exact absurd rfl hne
          | some st =>
            by_cases h0 : st = RESPONSECODE_NO_ERROR
            · subst h0
              refine ⟨d, t, rfl, ht, htseq, hst, ?_⟩
              rw [ht]
              simp [hst, responseIsNoError]
            · rw [ht] at hne
              simp only [Option.bind, hst, responseIsNoError,
                RESPONSECODE_NO_ERROR] at hne
              rw [if_neg (by simpa [RESPONSECODE_NO_ERROR] using h0)] at hne
              exact absurd rfl hne
        · rw [if_neg hseq] at hne
          exact absurd rfl hne
  · intro s N
    have h0 : (seqStep opts chan s .enterConnected).outboundSeqNum = 0 := rfl
    simpa using seqRun_ackRounds opts chan N 0
      (seqStep opts chan s .enterConnected) h0 (by decide)

/-- Witness for C3: a concrete event list keeps the counters in range, and
300 successful round-trips from connected-entry leave the outbound counter
at 44. -/
theorem C3_sequence_counters_witness :
    (seqRun {} (some 7) initSeqState
      [.enterConnected, .inboundAck (some (gatewayAck 0))]).outboundSeqNum
        < 256 ∧
    (seqRun {} (some 7) (seqStep {} (some 7) ⟨3, 9⟩ .enterConnected)
      (ackRounds 0 300)).outboundSeqNum = 300 % 256 := by
  have h := C3_sequence_counters {} (some 7)
  exact ⟨(h.1 [.enterConnected, .inboundAck (some (gatewayAck 0))]).2,
    h.2.2.2 ⟨3, 9⟩ 300⟩

/-- Splitting the big-endian bytes of the packed word tpci*1024 + apci*64 +
data6 recovers the three bit fields. -/
theorem word_split (t i n : Nat) (ht : t < 64) (hi : i < 16) (hn : n < 64) :
    (t * 1024 + i * 64 + n) / 256 % 256 / 4 = t ∧
    ((t * 1024 + i * 64 + n) / 256 % 256 % 4 * 4 +
      (t * 1024 + i * 64 + n) % 256 / 64) = i ∧
    (t * 1024 + i * 64 + n) % 256 % 64 = n := by
  refine ⟨?_, ?_, ?_⟩ <;> omega

/-- Looking a known APCI name up at its own index finds it again, and its
index fits into the 4-bit field. -/
theorem apci_get_indexOf (a : String) (ha : a ∈ APCICODES) :
    APCICODES.get? (APCICODES.indexOf a) = some a ∧
    APCICODES.indexOf a < 16 ∧ APCICODES.indexOf a < APCICODES.length := by
  fin_cases ha <;> exact ⟨rfl, by decide, by decide⟩

/-- Reading a 3-byte APDU: apduLength 1, then the packed word. -/
theorem readAPDU_short (b0 b1 : Nat) :
    readAPDU [1, b0, b1] =
      .ok (⟨b0 / 4, APCICODES.get? (b0 % 4 * 4 + b1 / 64), .buf [b1 % 64],
        none⟩, []) := rfl

/-- Reading a long APDU: apduLength L+1 for an L-byte payload after the
word, handed back verbatim. -/
theorem readAPDU_long (b0 b1 : Nat) (bs : List Nat) (h : 1 ≤ bs.length) :
    readAPDU ((bs.length + 1) :: b0 :: b1 :: bs) =
      .ok (⟨b0 / 4, APCICODES.get? (b0 % 4 * 4 + b1 / 64), .buf bs, none⟩,
        []) := by
  have hbind : ∀ {α β : Type} (a : α) (f : α → Except String β),
      (Except.ok a >>= f) = f a := fun a f => rfl
  simp only [readAPDU, readU8, hbind]
  have htake : (b0 :: b1 :: bs).take (bs.length + 1 + 1) = b0 :: b1 :: bs := by
    simp [List.take_succ_cons]
  have hdrop : (b0 :: b1 :: bs).drop (bs.length + 1 + 1) = [] := by
    simp [List.drop_succ_cons]
  rw [htake, hdrop]
  simp only [List.drop_succ_cons, List.drop_zero]
  rw [if_pos (by omega)]
  rfl

/-- C7: an APDU whose payload fits in 6 bits (a numeric value 0..63 or a
one-byte buffer holding 0..63) writes as exactly 3 bytes carrying the word
tpci*1024 + apci*64 + data in big-endian order, and reading them back
recovers tpci, apci and the data value (as the canonical one-byte buffer);
an n-byte buffer payload (1 <= n <= 14, first byte above 63 when n = 1)
writes as 3+n bytes with the payload verbatim after the word and reads
back identically. -/
theorem C7_apdu_short_and_long_roundtrip (t n : Nat) (a : String)
    (bs : List Nat) (ha : a ∈ APCICODES) (ht : t < 64) (hn : n ≤ 63)
    (hlen1 : 1 ≤ bs.length) (hlen14 : bs.length ≤ 14)
    (hone : bs.length = 1 → 63 < bs.headI) :
    (writeAPDU ⟨t, some a, .buf [n], none⟩ =
      .ok (1 :: u16be (t * 1024 + APCICODES.indexOf a * 64 + n)) ∧
     readAPDU (1 :: u16be (t * 1024 + APCICODES.indexOf a * 64 + n)) =
      .ok (⟨t, some a, .buf [n], none⟩, [])) ∧
    (writeAPDU ⟨t, some a, .num n, none⟩ =
      .ok (1 :: u16be (t * 1024 + APCICODES.indexOf a * 64 + n))) ∧
    (writeAPDU ⟨t, some a, .buf bs, none⟩ =
      .ok ((bs.length + 1) :: u16be (t * 1024 + APCICODES.indexOf a * 64)
        ++ bs) ∧
     ((bs.length + 1) :: u16be (t * 1024 + APCICODES.indexOf a * 64)
        ++ bs).length = 3 + bs.length ∧
     readAPDU ((bs.length + 1) :: u16be (t * 1024 + APCICODES.indexOf a * 64)
        ++ bs) = .ok (⟨t, some a, .buf bs, none⟩, [])) := by
  obtain ⟨hget, hi16, hilt⟩ := apci_get_indexOf a ha
  have hw := word_split t (APCICODES.indexOf a) n ht hi16 (by omega)
  have hw0 := word_split t (APCICODES.indexOf a) 0 ht hi16 (by omega)
  refine ⟨⟨?_, ?_⟩, ?_, ?_, ?_, ?_⟩
  · have hlen : lengthsAPDU ⟨t, some a, .buf [n], none⟩ = .ok 3 := by
      simp [lengthsAPDU, lengthsAPDU.lengthsAPDUdata, hn]
    simp only [writeAPDU, hlen]
    rw [if_neg (by omega)]
    norm_num [apduEmbeddedData]
  · rw [show (1 :: u16be (t * 1024 + APCICODES.indexOf a * 64 + n)) =
      [1, (t * 1024 + APCICODES.indexOf a * 64 + n) / 256 % 256,
       (t * 1024 + APCICODES.indexOf a * 64 + n) % 256] from rfl]
    rw [readAPDU_short, hw.1, hw.2.1, hw.2.2, hget]
  · have hlen : lengthsAPDU ⟨t, some a, .num n, none⟩ = .ok 3 := by
      simp [lengthsAPDU, lengthsAPDU.lengthsAPDUdata, hn]
    simp only [writeAPDU, hlen]
    rw [if_neg (by omega)]
    norm_num [apduEmbeddedData]
  · have hlen : lengthsAPDU ⟨t, some a, .buf bs, none⟩ =
        .ok (3 + bs.length) := by
      cases bs with
      | nil => simp at hlen1
      | cons b tl =>
        simp only [lengthsAPDU, lengthsAPDU.lengthsAPDUdata]
        rw [if_neg (by simpa using hlen14), if_neg ?_]
        rintro ⟨h1, h2⟩
        have := hone (by simpa using h1)
        simp only [List.headI] at this
        omega
    simp only [writeAPDU, hlen]
    rw [if_neg (by omega), if_neg (by omega), if_neg (by omega),
      if_neg (by omega)]
    have : (3 + bs.length - 2) % 256 = bs.length + 1 := by omega
    rw [this]
    rfl
  · simp [u16be]
    omega
  · rw [show ((bs.length + 1) :: u16be (t * 1024 + APCICODES.indexOf a * 64)
      ++ bs) = ((bs.length + 1) ::
        (t * 1024 + APCICODES.indexOf a * 64) / 256 % 256 ::
        (t * 1024 + APCICODES.indexOf a * 64) % 256 :: bs) from rfl]
    rw [readAPDU_long _ _ _ hlen1]
    have e1 : (t * 1024 + APCICODES.indexOf a * 64) / 256 % 256 / 4 = t := by
      have := hw0.1
      simpa using this
    have e2 : (t * 1024 + APCICODES.indexOf a * 64) / 256 % 256 % 4 * 4 +
        (t * 1024 + APCICODES.indexOf a * 64) % 256 / 64 =
        APCICODES.indexOf a := by
      have := hw0.2.1
      simpa using this
    rw [e1, e2, hget]

/-- Witness for C7: tpci 0, GroupValue_Write, payload [5] gives the 3 bytes
[1, 0, 133] and round-trips; a 14-byte buffer of 200s gives 17 bytes. -/
theorem C7_apdu_short_and_long_roundtrip_witness :
    writeAPDU ⟨0, some "GroupValue_Write", .buf [5], none⟩ =
      .ok [1, 0, 133] ∧
    readAPDU [1, 0, 133] =
      .ok (⟨0, some "GroupValue_Write", .buf [5], none⟩, []) ∧
    writeAPDU ⟨0, some "GroupValue_Write",
      .buf (List.replicate 14 200), none⟩ =
      .ok (15 :: 0 :: 128 :: List.replicate 14 200) ∧
    (15 :: 0 :: 128 :: List.replicate 14 200 : List Nat).length = 17 := by
  have h := C7_apdu_short_and_long_roundtrip 0 5 "GroupValue_Write"
    (List.replicate 14 200) (by decide) (by decide) (by decide)
    (by decide) (by decide) (by decide)
  exact ⟨h.1.1, h.1.2, h.2.2.1, rfl⟩

/-- Binding an ok value is application. -/
theorem eBindOk {α β : Type} (a : α) (f : α → Except String β) :
    (Except.ok a >>= f) = f a := rfl

/-- readU16BE undoes u16be. -/
theorem readU16BE_u16be (v : Nat) (rest : List Nat) (h : v < 65536) :
    readU16BE (u16be v ++ rest) = .ok (v, rest) := by
  have h1 : readU16BE (u16be v ++ rest) =
      .ok (v / 256 % 256 * 256 + v % 256, rest) := rfl
  rw [h1]
  have h2 : v / 256 % 256 * 256 + v % 256 = v := by omega
  rw [h2]

/-- readIPv4Endpoint undoes writeIPv4Endpoint. -/
theorem readIPv4Endpoint_write (e : IPv4Endpoint) (rest : List Nat)
    (h : wfEndpoint e = true) :
    readIPv4Endpoint (writeIPv4Endpoint e ++ rest) = .ok (e, rest) := by
  obtain ⟨a, b, c, d, p⟩ := e
  simp only [wfEndpoint, Bool.and_eq_true, decide_eq_true_eq] at h
  obtain ⟨⟨⟨⟨ha, hb⟩, hc⟩, hd⟩, hp⟩ := h
  have h1 : writeIPv4Endpoint ⟨a, b, c, d, p⟩ ++ rest =
      a :: b :: c :: d :: (u16be p ++ rest) := by
    simp [writeIPv4Endpoint, Nat.mod_eq_of_lt, ha, hb, hc, hd,
      List.append_assoc]
  rw [h1]
  have h2 : readIPv4Endpoint (a :: b :: c :: d :: (u16be p ++ rest)) =
      (readU16BE (u16be p ++ rest)) >>= fun pr =>
        .ok (⟨a, b, c, d, pr.1⟩, pr.2) := rfl
  rw [h2, readU16BE_u16be p rest hp]
  rfl

/-- readHPAI undoes writeHPAI when the whole buffer is at least 8 bytes. -/
theorem readHPAI_write (h : HPAI) (rest : List Nat) (fullLen : Nat)
    (hw : wfHPAI h = true) (hf : 8 ≤ fullLen) :
    readHPAI fullLen (writeHPAI h ++ rest) = .ok (h, rest) := by
  obtain ⟨pt, ep⟩ := h
  simp only [wfHPAI, Bool.and_eq_true, decide_eq_true_eq, Bool.not_eq_true',
    beq_eq_false_iff_ne, ne_eq] at hw
  obtain ⟨⟨hpt, hne⟩, hep⟩ := hw
  have h1 : writeHPAI ⟨pt, ep⟩ ++ rest =
      8 :: pt :: (writeIPv4Endpoint ep ++ rest) := by
    simp [writeHPAI, Nat.mod_eq_of_lt hpt, List.append_assoc]
  rw [h1]
  have h2 : readHPAI fullLen (8 :: pt :: (writeIPv4Endpoint ep ++ rest)) =
      (readIPv4Endpoint (writeIPv4Endpoint ep ++ rest)) >>= fun er =>
        if fullLen < 8 then .error "Incomplete KNXNet HPAI header"
        else if pt = PROTOCOL_TYPE_IPV4_TCP then
          .error "TCP is not supported"
        else .ok (⟨pt, er.1⟩, er.2) := rfl
  rw [h2, readIPv4Endpoint_write ep rest hep, eBindOk]
  rw [if_neg (by omega), if_neg (by simpa [PROTOCOL_TYPE_IPV4_TCP] using hne)]

/-- readCRI undoes writeCRI. -/
theorem readCRI_write (c : CRI) (rest : List Nat) (hw : wfCRI c = true) :
    readCRI (writeCRI c ++ rest) = .ok (c, rest) := by
  obtain ⟨ct, kl, un⟩ := c
  simp only [wfCRI, Bool.and_eq_true, Bool.or_eq_true, beq_iff_eq,
    decide_eq_true_eq] at hw
  obtain ⟨⟨hct, hkl⟩, hun⟩ := hw
  have hctlt : ct < 256 := by
    rcases hct with h | h <;> simp [h,
      CONNECTION_TYPE_DEVICE_MGMT_CONNECTION,
      CONNECTION_TYPE_TUNNEL_CONNECTION]
  have h1 : writeCRI ⟨ct, kl, un⟩ ++ rest = 4 :: ct :: kl :: un :: rest := by
    simp [writeCRI, Nat.mod_eq_of_lt, hctlt, hkl, hun]
  rw [h1]
  have h2 : readCRI (4 :: ct :: kl :: un :: rest) =
      (if ct = CONNECTION_TYPE_DEVICE_MGMT_CONNECTION ∨
          ct = CONNECTION_TYPE_TUNNEL_CONNECTION then
        .ok (⟨ct, kl, un⟩, rest)
      else .error "Unsupported connection type") := rfl
  rw [h2, if_pos (by simpa [CONNECTION_TYPE_DEVICE_MGMT_CONNECTION,
    CONNECTION_TYPE_TUNNEL_CONNECTION] using hct)]

/-- readConnState undoes writeConnState. -/
theorem readConnState_write (c : ConnState) (rest : List Nat)
    (hw : wfConnState c = true) :
    readConnState (writeConnState c ++ rest) = .ok (c, rest) := by
  obtain ⟨ch, st⟩ := c
  cases ch with
  | none => simp [wfConnState, wfOptByte] at hw
  | some ch =>
    cases st with
    | none => simp [wfConnState, wfOptByte] at hw
    | some st =>
      simp only [wfConnState, wfOptByte, Bool.and_eq_true,
        decide_eq_true_eq] at hw
      obtain ⟨hch, hst⟩ := hw
      have h1 : writeConnState ⟨some ch, some st⟩ ++ rest =
          ch :: st :: rest := by
        simp [writeConnState, jsByte, Nat.mod_eq_of_lt, hch, hst]
      rw [h1]
      rfl

/-- readTunnState undoes writeTunnState. -/
theorem readTunnState_write (t : TunnState) (rest : List Nat)
    (hw : wfTunnState t = true) :
    readTunnState (writeTunnState t ++ rest) = .ok (t, rest) := by
  obtain ⟨ch, sq, st⟩ := t
  cases ch with
  | none => simp [wfTunnState, wfOptByte] at hw
  | some ch =>
  cases sq with
  | none => simp [wfTunnState, wfOptByte] at hw
  | some sq =>
  cases st with
  | none => simp [wfTunnState, wfOptByte] at hw
  | some st =>
  simp only [wfTunnState, wfOptByte, Bool.and_eq_true,
    decide_eq_true_eq] at hw
  obtain ⟨⟨hch, hsq⟩, hst⟩ := hw
  have h1 : writeTunnState ⟨some ch, some sq, some st⟩ ++ rest =
      4 :: ch :: sq :: st :: rest := by
    simp [writeTunnState, jsByte, Nat.mod_eq_of_lt, hch, hsq, hst]
  rw [h1]
  rfl

/-- The ctrlStruct bit parser undoes the ctrl1/ctrl2 packing. -/
theorem readCtrl_pack (c : Ctrl) (h : wfCtrl c = true) :
    readCtrl (ctrlField1 c % 256) (ctrlField2 c % 256) = c := by
  obtain ⟨ft, rs, rp, bc, pr, ak, cf, dt, hc, ef⟩ := c
  simp only [wfCtrl, Bool.and_eq_true, decide_eq_true_eq] at h
  obtain ⟨⟨⟨⟨⟨⟨⟨⟨⟨h1, h2⟩, h3⟩, h4⟩, h5⟩, h6⟩, h7⟩, h8⟩, h9⟩, h10⟩ := h
  simp only [readCtrl, ctrlField1, ctrlField2, Ctrl.mk.injEq]
  refine ⟨?_, ?_, ?_, ?_, ?_, ?_, ?_, ?_, ?_, ?_⟩ <;> omega

/-- A well-formed APDU writes successfully, the length function predicts
the emitted byte count, and reading the bytes back recovers the value. -/
theorem apdu_roundtrip_wf (a : APDU) (h : wfAPDU a = true) :
    ∃ bs, writeAPDU a = .ok bs ∧ lengthsAPDU a = .ok bs.length ∧
      readAPDU bs = .ok (a, []) ∧ 3 ≤ bs.length ∧ bs.length ≤ 17 := by
  obtain ⟨t, apci, data, bl⟩ := a
  simp only [wfAPDU, Bool.and_eq_true, decide_eq_true_eq] at h
  obtain ⟨⟨⟨ht, hk⟩, hbl⟩, hdata⟩ := h
  cases apci with
  | none => simp [apciKnown] at hk
  | some s =>
  have hmem : s ∈ APCICODES := by
    simpa [apciKnown] using hk
  obtain ⟨hget, hi16, hilt⟩ := apci_get_indexOf s hmem
  have hblnone : bl = none := by
    cases bl with
    | none => rfl
    | some b => simp at hbl
  subst hblnone
  cases data with
  | num n => simp at hdata
  | buf bs =>
  simp only [Bool.and_eq_true, decide_eq_true_eq] at hdata
  obtain ⟨⟨hb1, hb14⟩, hbb⟩ := hdata
  by_cases hshort : bs.length = 1 ∧ bs.headI ≤ 63
  · -- 3-byte embedded payload
    obtain ⟨hL, hhead⟩ := hshort
    cases bs with
    | nil => simp at hL
    | cons b tl =>
    cases tl with
    | cons x xs => simp at hL
    | nil =>
    simp only [List.headI] at hhead
    have hw := word_split t (APCICODES.indexOf s) b ht hi16 (by omega)
    refine ⟨1 :: u16be (t * 1024 + APCICODES.indexOf s * 64 + b),
      ?_, ?_, ?_, by simp [u16be], by simp [u16be]⟩
    · have hlen : lengthsAPDU ⟨t, some s, .buf [b], none⟩ = .ok 3 := by
        simp [lengthsAPDU, lengthsAPDU.lengthsAPDUdata, hhead]
      simp only [writeAPDU, hlen]
      rw [if_neg (by omega)]
      norm_num [apduEmbeddedData]
    · simp [lengthsAPDU, lengthsAPDU.lengthsAPDUdata, hhead, u16be]
    · rw [show (1 :: u16be (t * 1024 + APCICODES.indexOf s * 64 + b)) =
        [1, (t * 1024 + APCICODES.indexOf s * 64 + b) / 256 % 256,
         (t * 1024 + APCICODES.indexOf s * 64 + b) % 256] from rfl]
      rw [readAPDU_short, hw.1, hw.2.1, hw.2.2, hget]
  · -- payload after the word
    have hone : bs.length = 1 → 63 < bs.headI := by
      intro h1
      by_contra hgt
      exact hshort ⟨h1, by omega⟩
    have hw0 := word_split t (APCICODES.indexOf s) 0 ht hi16 (by omega)
    have hlen : lengthsAPDU ⟨t, some s, .buf bs, none⟩ =
        .ok (3 + bs.length) := by
      cases bs with
      | nil => simp at hb1
      | cons b tl =>
        simp only [lengthsAPDU, lengthsAPDU.lengthsAPDUdata]
        rw [if_neg (by simpa using hb14), if_neg ?_]
        rintro ⟨h1, h2⟩
        have := hone (by simpa using h1)
        simp only [List.headI] at this
        omega
    refine ⟨(bs.length + 1) :: u16be (t * 1024 + APCICODES.indexOf s * 64)
      ++ bs, ?_, ?_, ?_, ?_, ?_⟩
    · simp only [writeAPDU, hlen]
      rw [if_neg (by omega), if_neg (by omega), if_neg (by omega),
        if_neg (by omega)]
      have he : (3 + bs.length - 2) % 256 = bs.length + 1 := by omega
      rw [he]
      rfl
    · rw [hlen]
      simp [u16be]
      omega
    · rw [show ((bs.length + 1) :: u16be (t * 1024 + APCICODES.indexOf s * 64)
        ++ bs) = ((bs.length + 1) ::
          (t * 1024 + APCICODES.indexOf s * 64) / 256 % 256 ::
          (t * 1024 + APCICODES.indexOf s * 64) % 256 :: bs) from rfl]
      rw [readAPDU_long _ _ _ hb1]
      have e1 : (t * 1024 + APCICODES.indexOf s * 64) / 256 % 256 / 4 = t := by
        have := hw0.1
        simpa using this
      have e2 : (t * 1024 + APCICODES.indexOf s * 64) / 256 % 256 % 4 * 4 +
          (t * 1024 + APCICODES.indexOf s * 64) % 256 / 64 =
          APCICODES.indexOf s := by
        have := hw0.2.1
        simpa using this
      rw [e1, e2, hget]
    · simp [u16be]
    · simp [u16be]
      omega

/-- Reading a serialised CEMI head splits back into its fields. -/
theorem readCEMI_cons (mc ai c1 c2 s0 s1 d0 d1 : Nat) (rest : List Nat) :
    readCEMI (mc :: ai :: c1 :: c2 :: s0 :: s1 :: d0 :: d1 :: rest) =
      (if msgcodeHasAPDU mc then
        (readAPDU rest) >>= fun ar =>
          .ok (⟨mc, some ai, readCtrl c1 c2, s0 * 256 + s1, d0 * 256 + d1,
            some ar.1⟩, ar.2)
      else
        .ok (⟨mc, some ai, readCtrl c1 c2, s0 * 256 + s1, d0 * 256 + d1,
          none⟩, rest)) := rfl

/-- A well-formed CEMI writes successfully, the length function predicts
the emitted byte count, and reading the bytes back recovers the value. -/
theorem cemi_roundtrip_wf (c : CEMI) (h : wfCEMI c = true) :
    ∃ bs, writeCEMI c = .ok bs ∧ lengthsCEMI (some c) = .ok bs.length ∧
      readCEMI bs = .ok (c, []) ∧ 8 ≤ bs.length ∧ bs.length ≤ 25 := by
  obtain ⟨mc, ai, ctl, src, dst, apdu⟩ := c
  simp only [wfCEMI, Bool.and_eq_true, decide_eq_true_eq] at h
  obtain ⟨⟨⟨⟨⟨hmc, hai⟩, hctl⟩, hsrc⟩, hdst⟩, happ⟩ := h
  cases ai with
  | none => simp [wfOptByte] at hai
  | some aiv =>
  simp only [wfOptByte, decide_eq_true_eq] at hai
  have hc1 : ctrlField1 ctl % 256 < 256 := Nat.mod_lt _ (by omega)
  have hsrcsplit : src / 256 % 256 * 256 + src % 256 = src := by omega
  have hdstsplit : dst / 256 % 256 * 256 + dst % 256 = dst := by omega
  cases apdu with
  | some a =>
    simp only [Bool.and_eq_true] at happ
    obtain ⟨hhas, hwfa⟩ := happ
    obtain ⟨abs, hwa, hla, hra, hb3, hb17⟩ := apdu_roundtrip_wf a hwfa
    refine ⟨mc :: aiv :: ctrlField1 ctl % 256 :: ctrlField2 ctl % 256 ::
      src / 256 % 256 :: src % 256 :: dst / 256 % 256 :: dst % 256 :: abs,
      ?_, ?_, ?_, ?_, ?_⟩
    · simp only [writeCEMI, hhas, if_pos, hwa]
      simp [jsByte, u16be, Nat.mod_eq_of_lt, hmc, hai]
    · simp only [lengthsCEMI, hla]
      simp
      omega
    · rw [readCEMI_cons, if_pos (by simp [hhas]), hra, eBindOk]
      rw [hsrcsplit, hdstsplit, readCtrl_pack ctl hctl]
    · simp
    · simp
      omega
  | none =>
    simp only [Bool.not_eq_true'] at happ
    refine ⟨mc :: aiv :: ctrlField1 ctl % 256 :: ctrlField2 ctl % 256 ::
      src / 256 % 256 :: src % 256 :: dst / 256 % 256 :: dst % 256 :: [],
      ?_, ?_, ?_, by simp, by simp⟩
    · simp only [writeCEMI, happ]
      simp [jsByte, u16be, Nat.mod_eq_of_lt, hmc, hai, happ]
    · simp [lengthsCEMI]
    · rw [readCEMI_cons, if_neg (by simp [happ])]
      rw [hsrcsplit, hdstsplit, readCtrl_pack ctl hctl]

/-- Reading a SEARCH_REQUEST / CONNECT_REQUEST frame: header then two
HPAIs and a CRI. -/
theorem readKNXNetHeader_request (st tl : Nat) (rest : List Nat)
    (hst : st = SERVICE_TYPE_SEARCH_REQUEST ∨
      st = SERVICE_TYPE_CONNECT_REQUEST)
    (htl : tl < 65536) :
    readKNXNetHeader (6 :: 16 :: (u16be st ++ (u16be tl ++ rest))) =
      ((readHPAI (6 :: 16 :: (u16be st ++ (u16be tl ++ rest))).length rest)
        >>= fun hr =>
       (readHPAI (6 :: 16 :: (u16be st ++ (u16be tl ++ rest))).length hr.2)
        >>= fun tr =>
       (readCRI tr.2) >>= fun cr =>
        .ok { emptyDatagram st with
              hpai := some hr.1
              tunn := some tr.1
              cri := some cr.1 }) := by
  rcases hst with h | h <;> subst h <;>
  · simp only [readKNXNetHeader, readU8, eBindOk]
    rw [readU16BE_u16be _ _ (by decide), eBindOk,
      readU16BE_u16be tl _ htl, eBindOk]
    simp only [ltUndefined, SERVICE_TYPE_SEARCH_REQUEST,
      SERVICE_TYPE_CONNECT_REQUEST]
    norm_num
    rfl

/-- Reading a ConnState-family frame: header, ConnState, then an HPAI and
a CRI when totalLength permits. -/
theorem readKNXNetHeader_connstate (st tl : Nat) (rest : List Nat)
    (hst : st = SERVICE_TYPE_CONNECT_RESPONSE ∨
      st = SERVICE_TYPE_CONNECTIONSTATE_REQUEST ∨
      st = SERVICE_TYPE_CONNECTIONSTATE_RESPONSE ∨
      st = SERVICE_TYPE_DISCONNECT_REQUEST)
    (htl : tl < 65536) :
    readKNXNetHeader (6 :: 16 :: (u16be st ++ (u16be tl ++ rest))) =
      ((readConnState rest) >>= fun csr =>
        if tl > 8 then
          (readHPAI (6 :: 16 :: (u16be st ++ (u16be tl ++ rest))).length
            csr.2) >>= fun hr =>
            if tl > 16 then
              (readCRI hr.2) >>= fun cr =>
                .ok { emptyDatagram st with
                      connstate := some csr.1
                      hpai := some hr.1
                      cri := some cr.1 }
            else
              .ok { emptyDatagram st with
                    connstate := some csr.1
                    hpai := some hr.1 }
        else .ok { emptyDatagram st with connstate := some csr.1 }) := by
  rcases hst with h | h | h | h <;> subst h <;>
  · simp only [readKNXNetHeader, readU8, eBindOk]
    rw [readU16BE_u16be _ _ (by decide), eBindOk,
      readU16BE_u16be tl _ htl, eBindOk]
    simp only [ltUndefined, SERVICE_TYPE_SEARCH_REQUEST,
      SERVICE_TYPE_CONNECT_REQUEST, SERVICE_TYPE_SEARCH_RESPONSE,
      SERVICE_TYPE_CONNECT_RESPONSE, SERVICE_TYPE_CONNECTIONSTATE_REQUEST,
      SERVICE_TYPE_CONNECTIONSTATE_RESPONSE, SERVICE_TYPE_DISCONNECT_REQUEST,
      SERVICE_TYPE_DISCONNECT_RESPONSE]
    norm_num
    rfl

/-- Reading a TUNNELING_REQUEST frame: header, TunnState, CEMI. -/
theorem readKNXNetHeader_tunnelingRequest (tl : Nat) (rest : List Nat)
    (htl : tl < 65536) :
    readKNXNetHeader (6 :: 16 ::
        (u16be SERVICE_TYPE_TUNNELING_REQUEST ++ (u16be tl ++ rest))) =
      ((readTunnState rest) >>= fun tr =>
       (readCEMI tr.2) >>= fun cr =>
        .ok { emptyDatagram SERVICE_TYPE_TUNNELING_REQUEST with
              tunnstate := some tr.1
              cemi := some cr.1 }) := by
  simp only [readKNXNetHeader, readU8, eBindOk]
  rw [readU16BE_u16be _ _ (by decide), eBindOk,
    readU16BE_u16be tl _ htl, eBindOk]
  simp only [ltUndefined, SERVICE_TYPE_SEARCH_REQUEST,
    SERVICE_TYPE_CONNECT_REQUEST, SERVICE_TYPE_SEARCH_RESPONSE,
    SERVICE_TYPE_CONNECT_RESPONSE, SERVICE_TYPE_CONNECTIONSTATE_REQUEST,
    SERVICE_TYPE_CONNECTIONSTATE_RESPONSE, SERVICE_TYPE_DISCONNECT_REQUEST,
    SERVICE_TYPE_DISCONNECT_RESPONSE, SERVICE_TYPE_DESCRIPTION_RESPONSE,
    SERVICE_TYPE_TUNNELING_REQUEST]
  norm_num
  rfl

/-- Reading a TUNNELING_ACK frame: header then TunnState. -/
theorem readKNXNetHeader_tunnelingAck (tl : Nat) (rest : List Nat)
    (htl : tl < 65536) :
    readKNXNetHeader (6 :: 16 ::
        (u16be SERVICE_TYPE_TUNNELING_ACK ++ (u16be tl ++ rest))) =
      ((readTunnState rest) >>= fun tr =>
        .ok { emptyDatagram SERVICE_TYPE_TUNNELING_ACK with
              tunnstate := some tr.1 }) := by
  simp only [readKNXNetHeader, readU8, eBindOk]
  rw [readU16BE_u16be _ _ (by decide), eBindOk,
    readU16BE_u16be tl _ htl, eBindOk]
  simp only [ltUndefined, SERVICE_TYPE_SEARCH_REQUEST,
    SERVICE_TYPE_CONNECT_REQUEST, SERVICE_TYPE_SEARCH_RESPONSE,
    SERVICE_TYPE_CONNECT_RESPONSE, SERVICE_TYPE_CONNECTIONSTATE_REQUEST,
    SERVICE_TYPE_CONNECTIONSTATE_RESPONSE, SERVICE_TYPE_DISCONNECT_REQUEST,
    SERVICE_TYPE_DISCONNECT_RESPONSE, SERVICE_TYPE_DESCRIPTION_RESPONSE,
    SERVICE_TYPE_TUNNELING_REQUEST, SERVICE_TYPE_TUNNELING_ACK]
  norm_num
  rfl

/-- Reading a ROUTING_INDICATION frame: header then CEMI. -/
theorem readKNXNetHeader_routing (tl : Nat) (rest : List Nat)
    (htl : tl < 65536) :
    readKNXNetHeader (6 :: 16 ::
        (u16be SERVICE_TYPE_ROUTING_INDICATION ++ (u16be tl ++ rest))) =
      ((readCEMI rest) >>= fun cr =>
        .ok { emptyDatagram SERVICE_TYPE_ROUTING_INDICATION with
              cemi := some cr.1 }) := by
  simp only [readKNXNetHeader, readU8, eBindOk]
  rw [readU16BE_u16be _ _ (by decide), eBindOk,
    readU16BE_u16be tl _ htl, eBindOk]
  simp only [ltUndefined, SERVICE_TYPE_SEARCH_REQUEST,
    SERVICE_TYPE_CONNECT_REQUEST, SERVICE_TYPE_SEARCH_RESPONSE,
    SERVICE_TYPE_CONNECT_RESPONSE, SERVICE_TYPE_CONNECTIONSTATE_REQUEST,
    SERVICE_TYPE_CONNECTIONSTATE_RESPONSE, SERVICE_TYPE_DISCONNECT_REQUEST,
    SERVICE_TYPE_DISCONNECT_RESPONSE, SERVICE_TYPE_DESCRIPTION_RESPONSE,
    SERVICE_TYPE_TUNNELING_REQUEST, SERVICE_TYPE_TUNNELING_ACK,
    SERVICE_TYPE_ROUTING_INDICATION]
  norm_num
  rfl

/-- Except.bind of an ok value is application. -/
theorem eBindOkB {α β : Type} (a : α) (f : α → Except String β) :
    (Except.ok a : Except String α).bind f = f a := rfl

/-- Writing a SEARCH_REQUEST / CONNECT_REQUEST value with all three
substructures: header with totalLength 26, two HPAIs, CRI. -/
theorem writeBytes_request (st : Nat)
    (hst : st = SERVICE_TYPE_SEARCH_REQUEST ∨
      st = SERVICE_TYPE_CONNECT_REQUEST) (hh htn : HPAI) (hcri : CRI) :
    writeBytes ⟨st, some hh, some htn, some hcri, none, none, none, none,
      none⟩ =
    .ok (6 :: 16 :: (u16be st ++ (u16be 26 ++ (writeHPAI hh ++
      (writeHPAI htn ++ (writeCRI hcri ++ [])))))) := by
  rcases hst with rfl | rfl <;> rfl

/-- Writing a ConnState-family value with the ConnState alone: totalLength
8. -/
theorem writeBytes_connstate1 (st : Nat)
    (hst : st = SERVICE_TYPE_CONNECT_RESPONSE ∨
      st = SERVICE_TYPE_CONNECTIONSTATE_REQUEST ∨
      st = SERVICE_TYPE_CONNECTIONSTATE_RESPONSE ∨
      st = SERVICE_TYPE_DISCONNECT_REQUEST) (hcs : ConnState) :
    writeBytes ⟨st, none, none, none, some hcs, none, none, none, none⟩ =
    .ok (6 :: 16 :: (u16be st ++ (u16be 8 ++
      (writeConnState hcs ++ [])))) := by
  rcases hst with rfl | rfl | rfl | rfl <;> rfl

/-- Writing a ConnState-family value with ConnState and HPAI: totalLength
16. -/
theorem writeBytes_connstate2 (st : Nat)
    (hst : st = SERVICE_TYPE_CONNECT_RESPONSE ∨
      st = SERVICE_TYPE_CONNECTIONSTATE_REQUEST ∨
      st = SERVICE_TYPE_CONNECTIONSTATE_RESPONSE ∨
      st = SERVICE_TYPE_DISCONNECT_REQUEST) (hcs : ConnState) (hh : HPAI) :
    writeBytes ⟨st, some hh, none, none, some hcs, none, none, none, none⟩ =
    .ok (6 :: 16 :: (u16be st ++ (u16be 16 ++
      (writeConnState hcs ++ (writeHPAI hh ++ []))))) := by
  rcases hst with rfl | rfl | rfl | rfl <;> rfl

/-- Writing a ConnState-family value with ConnState, HPAI and CRI:
totalLength 20. -/
theorem writeBytes_connstate3 (st : Nat)
    (hst : st = SERVICE_TYPE_CONNECT_RESPONSE ∨
      st = SERVICE_TYPE_CONNECTIONSTATE_REQUEST ∨
      st = SERVICE_TYPE_CONNECTIONSTATE_RESPONSE ∨
      st = SERVICE_TYPE_DISCONNECT_REQUEST) (hcs : ConnState) (hh : HPAI)
    (hcri : CRI) :
    writeBytes ⟨st, some hh, none, some hcri, some hcs, none, none, none,
      none⟩ =
    .ok (6 :: 16 :: (u16be st ++ (u16be 20 ++ (writeConnState hcs ++
      (writeHPAI hh ++ (writeCRI hcri ++ [])))))) := by
  rcases hst with rfl | rfl | rfl | rfl <;> rfl

/-- Writing a TUNNELING_ACK value: totalLength 10, TunnState alone. -/
theorem writeBytes_tack (t : TunnState) :
    writeBytes ⟨SERVICE_TYPE_TUNNELING_ACK, none, none, none, none, some t,
      none, none, none⟩ =
    .ok (6 :: 16 :: (u16be SERVICE_TYPE_TUNNELING_ACK ++ (u16be 10 ++
      (writeTunnState t ++ [])))) := rfl

/-- Writing a TUNNELING_REQUEST value: TunnState then CEMI, with the
totalLength computed from the CEMI length. -/
theorem writeBytes_treq (t : TunnState) (c : CEMI) (cb : List Nat)
    (hwcemi : writeCEMI c = .ok cb)
    (hlcemi : lengthsCEMI (some c) = .ok cb.length) :
    writeBytes ⟨SERVICE_TYPE_TUNNELING_REQUEST, none, none, none, none,
      some t, some c, none, none⟩ =
    .ok (6 :: 16 :: (u16be SERVICE_TYPE_TUNNELING_REQUEST ++
      (u16be (10 + cb.length) ++ (writeTunnState t ++ cb)))) := by
  simp only [writeBytes, writeKNXNetHeader, lengthsKNXNetHeader,
    lengthsTunnState, hlcemi, SERVICE_TYPE_SEARCH_REQUEST,
    SERVICE_TYPE_CONNECT_REQUEST, SERVICE_TYPE_SEARCH_RESPONSE,
    SERVICE_TYPE_CONNECT_RESPONSE, SERVICE_TYPE_CONNECTIONSTATE_REQUEST,
    SERVICE_TYPE_CONNECTIONSTATE_RESPONSE, SERVICE_TYPE_DISCONNECT_REQUEST,
    SERVICE_TYPE_TUNNELING_ACK, SERVICE_TYPE_TUNNELING_REQUEST,
    SERVICE_TYPE_ROUTING_INDICATION, hwcemi]
  norm_num

/-- Writing a ROUTING_INDICATION value: CEMI alone, with the totalLength
computed from the CEMI length. -/
theorem writeBytes_routing (c : CEMI) (cb : List Nat)
    (hwcemi : writeCEMI c = .ok cb)
    (hlcemi : lengthsCEMI (some c) = .ok cb.length) :
    writeBytes ⟨SERVICE_TYPE_ROUTING_INDICATION, none, none, none, none,
      none, some c, none, none⟩ =
    .ok (6 :: 16 :: (u16be SERVICE_TYPE_ROUTING_INDICATION ++
      (u16be (6 + cb.length) ++ cb))) := by
  simp only [writeBytes, writeKNXNetHeader, lengthsKNXNetHeader,
    lengthsTunnState, hlcemi, SERVICE_TYPE_SEARCH_REQUEST,
    SERVICE_TYPE_CONNECT_REQUEST, SERVICE_TYPE_SEARCH_RESPONSE,
    SERVICE_TYPE_CONNECT_RESPONSE, SERVICE_TYPE_CONNECTIONSTATE_REQUEST,
    SERVICE_TYPE_CONNECTIONSTATE_RESPONSE, SERVICE_TYPE_DISCONNECT_REQUEST,
    SERVICE_TYPE_TUNNELING_ACK, SERVICE_TYPE_TUNNELING_REQUEST,
    SERVICE_TYPE_ROUTING_INDICATION, hwcemi]
  norm_num

/-- C1 (amended): for every well-formed frame value of a service type both
the writer and the reader support other than SEARCH_RESPONSE (whose body
the writer emits as the ConnState family, DIBdevinfo being unwritable),
reading back the written bytes yields the value again; the canonicalised
defaults (HPAI and CRI length bytes, TunnState length, header constants and
the recomputed totalLength) are not part of the canonical value, and the
claim's canonicalisation extends to the reader's buffer form of 6-bit APDU
payloads. -/
theorem C1_amended_read_write_roundtrip (v : Datagram)
    (h : wfDatagram v = true) :
    (writeBytes v).bind readKNXNetHeader = .ok v := by
  obtain ⟨st, hp, tn, cr, cs, ts, ce, dv, dc⟩ := v
  simp only [wfDatagram] at h
  by_cases c1 : (st == SERVICE_TYPE_SEARCH_REQUEST ||
      st == SERVICE_TYPE_CONNECT_REQUEST) = true
  · rw [if_pos c1] at h
    have hcond : st = SERVICE_TYPE_SEARCH_REQUEST ∨
        st = SERVICE_TYPE_CONNECT_REQUEST := by
      simpa using c1
    simp only [Bool.and_eq_true, Option.isNone_iff_eq_none] at h
    obtain ⟨⟨⟨⟨⟨hmatch, hcs⟩, hts⟩, hce⟩, hdv⟩, hdc⟩ := h
    subst hcs hts hce hdv hdc
    cases hp with
    | none => simp at hmatch
    | some hh =>
    cases tn with
    | none => simp at hmatch
    | some htn =>
    cases cr with
    | none => simp at hmatch
    | some hcri =>
    simp only [Bool.and_eq_true] at hmatch
    obtain ⟨⟨hwh, hwt⟩, hwc⟩ := hmatch
    rw [writeBytes_request st hcond hh htn hcri, eBindOkB]
    rw [readKNXNetHeader_request st 26 _ hcond (by norm_num)]
    have hfl : 8 ≤ (6 :: 16 :: (u16be st ++ (u16be 26 ++ (writeHPAI hh ++
        (writeHPAI htn ++ (writeCRI hcri ++ [])))))).length := by
      simp [u16be, writeHPAI, writeIPv4Endpoint, writeCRI]
    rw [readHPAI_write hh _ _ hwh hfl, eBindOk,
      readHPAI_write htn _ _ hwt hfl, eBindOk,
      readCRI_write hcri _ hwc, eBindOk]
    rfl
  · rw [if_neg c1] at h
    by_cases c2 : (st == SERVICE_TYPE_CONNECT_RESPONSE ||
        st == SERVICE_TYPE_CONNECTIONSTATE_REQUEST ||
        st == SERVICE_TYPE_CONNECTIONSTATE_RESPONSE ||
        st == SERVICE_TYPE_DISCONNECT_REQUEST) = true
    · rw [if_pos c2] at h
      have hcond : st = SERVICE_TYPE_CONNECT_RESPONSE ∨
          st = SERVICE_TYPE_CONNECTIONSTATE_REQUEST ∨
          st = SERVICE_TYPE_CONNECTIONSTATE_RESPONSE ∨
          st = SERVICE_TYPE_DISCONNECT_REQUEST := by
        have := c2
        simp at this
        tauto
      simp only [Bool.and_eq_true, Option.isNone_iff_eq_none] at h
      obtain ⟨⟨⟨⟨⟨hmatch, htn⟩, hts⟩, hce⟩, hdv⟩, hdc⟩ := h
      subst htn hts hce hdv hdc
      cases cs with
      | none => cases hp <;> cases cr <;> simp at hmatch
      | some hcs =>
      cases hp with
      | none =>
        cases cr with
        | some hcri => simp at hmatch
        | none =>
          have hwcs : wfConnState hcs = true := by simpa using hmatch
          rw [writeBytes_connstate1 st hcond hcs, eBindOkB]
          rw [readKNXNetHeader_connstate st 8 _ hcond (by norm_num)]
          rw [readConnState_write hcs _ hwcs, eBindOk]
          rw [if_neg (by norm_num)]
          rfl
      | some hh =>
        cases cr with
        | none =>
          simp only [Bool.and_eq_true] at hmatch
          obtain ⟨hwcs, hwh⟩ := hmatch
          rw [writeBytes_connstate2 st hcond hcs hh, eBindOkB]
          rw [readKNXNetHeader_connstate st 16 _ hcond (by norm_num)]
          rw [readConnState_write hcs _ hwcs, eBindOk]
          rw [if_pos (by norm_num)]
          have hfl : 8 ≤ (6 :: 16 :: (u16be st ++ (u16be 16 ++
              (writeConnState hcs ++ (writeHPAI hh ++ []))))).length := by
            simp [u16be, writeHPAI, writeIPv4Endpoint, writeConnState]
          rw [readHPAI_write hh _ _ hwh hfl, eBindOk]
          rw [if_neg (by norm_num)]
          rfl
        | some hcri =>
          simp only [Bool.and_eq_true] at hmatch
          obtain ⟨⟨hwcs, hwh⟩, hwc⟩ := hmatch
          rw [writeBytes_connstate3 st hcond hcs hh hcri, eBindOkB]
          rw [readKNXNetHeader_connstate st 20 _ hcond (by norm_num)]
          rw [readConnState_write hcs _ hwcs, eBindOk]
          rw [if_pos (by norm_num)]
          have hfl : 8 ≤ (6 :: 16 :: (u16be st ++ (u16be 20 ++
              (writeConnState hcs ++ (writeHPAI hh ++
              (writeCRI hcri ++ [])))))).length := by
            simp [u16be, writeHPAI, writeIPv4Endpoint, writeConnState,
              writeCRI]
          rw [readHPAI_write hh _ _ hwh hfl, eBindOk]
          rw [if_pos (by norm_num)]
          rw [readCRI_write hcri _ hwc, eBindOk]
          rfl
    · rw [if_neg c2] at h
      by_cases c3 : (st == SERVICE_TYPE_TUNNELING_REQUEST) = true
      · rw [if_pos c3] at h
        have hst : st = SERVICE_TYPE_TUNNELING_REQUEST := by simpa using c3
        subst hst
        simp only [Bool.and_eq_true, Option.isNone_iff_eq_none] at h
        obtain ⟨⟨⟨⟨⟨⟨hmatch, hhp⟩, htn⟩, hcr⟩, hcs⟩, hdv⟩, hdc⟩ := h
        subst hhp htn hcr hcs hdv hdc
        cases ts with
        | none => cases ce <;> simp at hmatch
        | some t =>
        cases ce with
        | none => simp at hmatch
        | some c =>
        simp only [Bool.and_eq_true] at hmatch
        obtain ⟨hwt, hwc⟩ := hmatch
        obtain ⟨cb, hwcemi, hlcemi, hrcemi, hcb8, hcb25⟩ :=
          cemi_roundtrip_wf c hwc
        rw [writeBytes_treq t c cb hwcemi hlcemi, eBindOkB]
        rw [readKNXNetHeader_tunnelingRequest (10 + cb.length) _ (by omega)]
        rw [readTunnState_write t _ hwt, eBindOk, hrcemi, eBindOk]
        rfl
      · rw [if_neg c3] at h
        by_cases c4 : (st == SERVICE_TYPE_TUNNELING_ACK) = true
        · rw [if_pos c4] at h
          have hst : st = SERVICE_TYPE_TUNNELING_ACK := by simpa using c4
          subst hst
          simp only [Bool.and_eq_true, Option.isNone_iff_eq_none] at h
          obtain ⟨⟨⟨⟨⟨⟨⟨hmatch, hhp⟩, htn⟩, hcr⟩, hcs⟩, hce⟩, hdv⟩, hdc⟩ := h
          subst hhp htn hcr hcs hce hdv hdc
          cases ts with
          | none => simp at hmatch
          | some t =>
          have hwt : wfTunnState t = true := by simpa using hmatch
          rw [writeBytes_tack t, eBindOkB]
          rw [readKNXNetHeader_tunnelingAck 10 _ (by norm_num)]
          rw [readTunnState_write t _ hwt, eBindOk]
          rfl
        · rw [if_neg c4] at h
          by_cases c5 : (st == SERVICE_TYPE_ROUTING_INDICATION) = true
          · rw [if_pos c5] at h
            have hst : st = SERVICE_TYPE_ROUTING_INDICATION := by
              simpa using c5
            subst hst
            simp only [Bool.and_eq_true, Option.isNone_iff_eq_none] at h
            obtain ⟨⟨⟨⟨⟨⟨⟨hmatch, hhp⟩, htn⟩, hcr⟩, hcs⟩, hts⟩, hdv⟩,
              hdc⟩ := h
            subst hhp htn hcr hcs hts hdv hdc
            cases ce with
            | none => simp at hmatch
            | some c =>
            have hwc : wfCEMI c = true := by simpa using hmatch
            obtain ⟨cb, hwcemi, hlcemi, hrcemi, hcb8, hcb25⟩ :=
              cemi_roundtrip_wf c hwc
            rw [writeBytes_routing c cb hwcemi hlcemi, eBindOkB]
            rw [readKNXNetHeader_routing (6 + cb.length) _ (by omega)]
            rw [hrcemi, eBindOk]
            rfl
          · rw [if_neg c5] at h
            exact absurd h (by simp)

/-- C1 counterexample: SEARCH_RESPONSE is a service type with both a writer
case and a reader case, but the writer emits the ConnState-family body for
it (the HPAI alone here; DIBdevinfo.write is unimplemented), so reading the
written bytes back fails instead of returning the value. -/
theorem C1_searchresponse_no_roundtrip :
    (writeBytes searchRespValue).bind readKNXNetHeader =
      .error "Attempt to read beyond buffer length" ∧
    (writeBytes searchRespValue).bind readKNXNetHeader ≠
      .ok searchRespValue := by
  refine ⟨rfl, ?_⟩
  intro hcontra
  rw [show (writeBytes searchRespValue).bind readKNXNetHeader =
    .error "Attempt to read beyond buffer length" from rfl] at hcontra
  exact Except.noConfusion hcontra

/-- Witness for C1: a concrete CONNECT_REQUEST value is well formed and
round-trips through the codec. -/
theorem C1_amended_read_write_roundtrip_witness :
    wfDatagram connReqValue = true ∧
    (writeBytes connReqValue).bind readKNXNetHeader = .ok connReqValue :=
  ⟨by decide, C1_amended_read_write_roundtrip connReqValue (by decide)⟩

end KnxNetIp
